import Mathlib

/-!
Shallow embedding of the SWE dimensional-splitting block solver
(src/src/blocks/SWE_Block.hh and src/src/blocks/SWE_DimensionalSplittingCharm.cpp).

Machine floats are idealised as rationals; grid fields are total functions
on Nat indices (the code allocates (nx+2) x (ny+2) arrays, claims only ever
touch indices inside that range).  The OpenMP-parallel loops of
computeNumericalFluxes and updateUnknowns write pairwise-distinct cells and
read only cells that the loop never writes, so their semantics is captured
pointwise; the list of solver invocations of each sweep is kept explicitly
so that call-count claims can be stated.
-/

namespace SWE

/-- Boundary edge names, from src/src/types/Boundary.hh as used by the blocks. -/
inductive Boundary
  | BND_LEFT
  | BND_RIGHT
  | BND_BOTTOM
  | BND_TOP
deriving DecidableEq

/-- Boundary condition types, from src/src/types/Boundary.hh as used by the blocks. -/
inductive BoundaryType
  | WALL
  | OUTFLOW
  | CONNECT
  | PASSIVE
deriving DecidableEq

open Boundary BoundaryType

/-- Result of one call of the external Riemann solver
(solver::Hybrid::computeNetUpdates, external interface of spec section 6):
the two net updates for each side and the linearised wave speed that is
max-reduced by the caller. -/
structure RiemannResult where
  netUpdateLeftH : ℚ
  netUpdateRightH : ℚ
  netUpdateLeftHu : ℚ
  netUpdateRightHu : ℚ
  waveSpeed : ℚ

/-- The external Riemann solver as a pure function of
(hLeft, hRight, huLeft, huRight, bLeft, bRight). -/
abbrev Solver := ℚ → ℚ → ℚ → ℚ → ℚ → ℚ → RiemannResult

/-- State of one SWE_DimensionalSplittingCharm block: grid metadata, the four
cell fields, the eight net-update scratch fields, the time step bound and
the per-edge boundary types (SWE_Block.hh together with
SWE_DimensionalSplittingCharm.hh). -/
structure Block where
  nx : Nat
  ny : Nat
  dx : ℚ
  dy : ℚ
  h : Nat → Nat → ℚ
  hu : Nat → Nat → ℚ
  hv : Nat → Nat → ℚ
  b : Nat → Nat → ℚ
  hNetUpdatesLeft : Nat → Nat → ℚ
  hNetUpdatesRight : Nat → Nat → ℚ
  huNetUpdatesLeft : Nat → Nat → ℚ
  huNetUpdatesRight : Nat → Nat → ℚ
  hNetUpdatesBelow : Nat → Nat → ℚ
  hNetUpdatesAbove : Nat → Nat → ℚ
  hvNetUpdatesBelow : Nat → Nat → ℚ
  hvNetUpdatesAbove : Nat → Nat → ℚ
  maxTimestep : ℚ
  boundaryType : Boundary → BoundaryType

/-- Index pairs (x, y) visited by the x-sweep of computeNumericalFluxes:
x from 0 to nx inclusive, y from 1 to ny inclusive
(the loops `for x in [0, nx+1)` and `for y in [1, ny+1)`). -/
def xSweepPairs (nx ny : Nat) : List (Nat × Nat) :=
  (List.range (nx + 1)).flatMap (fun x => (List.range ny).map (fun j => (x, j + 1)))

/-- Index pairs (x, y) visited by the y-sweep of computeNumericalFluxes:
x from 1 to nx inclusive, y from 0 to ny inclusive. -/
def ySweepPairs (nx ny : Nat) : List (Nat × Nat) :=
  (List.range nx).flatMap (fun i => (List.range (ny + 1)).map (fun y => (i + 1, y)))

/-- The solver invocation made by the x-sweep at pair (x, y): arguments are
h, hu and b of the two horizontally adjacent cells (x, y) and (x+1, y). -/
def xSweepCall (solver : Solver) (blk : Block) (x y : Nat) : RiemannResult :=
  solver (blk.h x y) (blk.h (x + 1) y) (blk.hu x y) (blk.hu (x + 1) y)
    (blk.b x y) (blk.b (x + 1) y)

/-- The solver invocation made by the y-sweep at pair (x, y): arguments are
h, hv and b of the two vertically adjacent cells (x, y) and (x, y+1). -/
def ySweepCall (solver : Solver) (blk : Block) (x y : Nat) : RiemannResult :=
  solver (blk.h x y) (blk.h x (y + 1)) (blk.hv x y) (blk.hv x (y + 1))
    (blk.b x y) (blk.b x (y + 1))

/-- Final value of the x-sweep reduction variable maxHorizontalWaveSpeed:
starting from 0, max-reduce the wave speeds of all x-sweep solver calls. -/
def maxHorizontalWaveSpeed (solver : Solver) (blk : Block) : ℚ :=
  ((xSweepPairs blk.nx blk.ny).map
    (fun p => (xSweepCall solver blk p.1 p.2).waveSpeed)).foldl max 0

/-- Final value of the y-sweep reduction variable maxVerticalWaveSpeed. -/
def maxVerticalWaveSpeed (solver : Solver) (blk : Block) : ℚ :=
  ((ySweepPairs blk.nx blk.ny).map
    (fun p => (ySweepCall solver blk p.1 p.2).waveSpeed)).foldl max 0

/-- SWE_DimensionalSplittingCharm::computeNumericalFluxes.
The x-sweep writes, for every x in [0, nx] and y in [1, ny], the left-going
update into hNetUpdatesLeft[x][y], huNetUpdatesLeft[x][y] and the right-going
update into hNetUpdatesRight[x+1][y], huNetUpdatesRight[x+1][y]; the y-sweep
writes, for every x in [1, nx] and y in [0, ny], into hNetUpdatesBelow[x][y],
hvNetUpdatesBelow[x][y] and hNetUpdatesAbove[x][y+1], hvNetUpdatesAbove[x][y+1].
Every target cell is written by exactly one iteration and the sweeps read only
h, hu, hv, b, which they never write, so the parallel loops are rendered
pointwise.  Afterwards maxTimestep is set to
0.4 * min(dx / maxWaveSpeed, dy / maxWaveSpeed) with
maxWaveSpeed = max(maxHorizontalWaveSpeed, maxVerticalWaveSpeed)
(lines 130 to 133 of the source: the same combined maxWaveSpeed is used in
both quotients). -/
def computeNumericalFluxes (solver : Solver) (blk : Block) : Block :=
  let maxH := maxHorizontalWaveSpeed solver blk
  let maxV := maxVerticalWaveSpeed solver blk
  let maxWaveSpeed := max maxH maxV
  { blk with
    hNetUpdatesLeft := fun x y =>
      if x ≤ blk.nx ∧ 1 ≤ y ∧ y ≤ blk.ny then
        (xSweepCall solver blk x y).netUpdateLeftH
      else blk.hNetUpdatesLeft x y
    huNetUpdatesLeft := fun x y =>
      if x ≤ blk.nx ∧ 1 ≤ y ∧ y ≤ blk.ny then
        (xSweepCall solver blk x y).netUpdateLeftHu
      else blk.huNetUpdatesLeft x y
    hNetUpdatesRight := fun x y =>
      if 1 ≤ x ∧ x ≤ blk.nx + 1 ∧ 1 ≤ y ∧ y ≤ blk.ny then
        (xSweepCall solver blk (x - 1) y).netUpdateRightH
      else blk.hNetUpdatesRight x y
    huNetUpdatesRight := fun x y =>
      if 1 ≤ x ∧ x ≤ blk.nx + 1 ∧ 1 ≤ y ∧ y ≤ blk.ny then
        (xSweepCall solver blk (x - 1) y).netUpdateRightHu
      else blk.huNetUpdatesRight x y
    hNetUpdatesBelow := fun x y =>
      if 1 ≤ x ∧ x ≤ blk.nx ∧ y ≤ blk.ny then
        (ySweepCall solver blk x y).netUpdateLeftH
      else blk.hNetUpdatesBelow x y
    hvNetUpdatesBelow := fun x y =>
      if 1 ≤ x ∧ x ≤ blk.nx ∧ y ≤ blk.ny then
        (ySweepCall solver blk x y).netUpdateLeftHu
      else blk.hvNetUpdatesBelow x y
    hNetUpdatesAbove := fun x y =>
      if 1 ≤ x ∧ x ≤ blk.nx ∧ 1 ≤ y ∧ y ≤ blk.ny + 1 then
        (ySweepCall solver blk x (y - 1)).netUpdateRightH
      else blk.hNetUpdatesAbove x y
    hvNetUpdatesAbove := fun x y =>
      if 1 ≤ x ∧ x ≤ blk.nx ∧ 1 ≤ y ∧ y ≤ blk.ny + 1 then
        (ySweepCall solver blk x (y - 1)).netUpdateRightHu
      else blk.hvNetUpdatesAbove x y
    maxTimestep := min (blk.dx / maxWaveSpeed) (blk.dy / maxWaveSpeed) * (2 / 5) }

/-- Interior cell-average update of SWE_DimensionalSplittingCharm::updateUnknowns
(lines 166 to 173): for every interior cell (x, y) with 1 <= x <= nx and
1 <= y <= ny, subtract the weighted sums of the net updates; each cell is
written once and all reads are from the net-update buffers and the own old
value, so the parallel loop is rendered pointwise. -/
def applyNetUpdates (blk : Block) (dt : ℚ) : Block :=
  { blk with
    h := fun x y =>
      if 1 ≤ x ∧ x ≤ blk.nx ∧ 1 ≤ y ∧ y ≤ blk.ny then
        blk.h x y -
          ((dt / blk.dx) * (blk.hNetUpdatesRight x y + blk.hNetUpdatesLeft x y) +
            (dt / blk.dy) * (blk.hNetUpdatesAbove x y + blk.hNetUpdatesBelow x y))
      else blk.h x y
    hu := fun x y =>
      if 1 ≤ x ∧ x ≤ blk.nx ∧ 1 ≤ y ∧ y ≤ blk.ny then
        blk.hu x y -
          (dt / blk.dx) * (blk.huNetUpdatesRight x y + blk.huNetUpdatesLeft x y)
      else blk.hu x y
    hv := fun x y =>
      if 1 ≤ x ∧ x ≤ blk.nx ∧ 1 ≤ y ∧ y ≤ blk.ny then
        blk.hv x y -
          (dt / blk.dy) * (blk.hvNetUpdatesAbove x y + blk.hvNetUpdatesBelow x y)
      else blk.hv x y }

/-- SWE_DimensionalSplittingCharm::updateUnknowns (lines 157 to 182).
The fatal assertion abs(dt - maxTimestep) < 0.00001 runs before any cell is
modified; failure is rendered as none, success performs the interior update. -/
def updateUnknowns (blk : Block) (dt : ℚ) : Option Block :=
  if |dt - blk.maxTimestep| < 1 / 100000 then some (applyNetUpdates blk dt)
  else none

/-- Left-boundary switch of SWE_Block::applyBoundaryConditions (lines 390 to 415):
WALL mirrors h and hv from column 1 into ghost column 0 and negates hu;
OUTFLOW copies all three; CONNECT and PASSIVE do nothing.  The loop writes
ghost column 0 at rows 1..ny reading column 1 only, so it is rendered pointwise. -/
def applyBoundaryLeft (blk : Block) : Block :=
  match blk.boundaryType BND_LEFT with
  | WALL =>
    { blk with
      h := fun x y => if x = 0 ∧ 1 ≤ y ∧ y ≤ blk.ny then blk.h 1 y else blk.h x y
      hu := fun x y => if x = 0 ∧ 1 ≤ y ∧ y ≤ blk.ny then -blk.hu 1 y else blk.hu x y
      hv := fun x y => if x = 0 ∧ 1 ≤ y ∧ y ≤ blk.ny then blk.hv 1 y else blk.hv x y }
  | OUTFLOW =>
    { blk with
      h := fun x y => if x = 0 ∧ 1 ≤ y ∧ y ≤ blk.ny then blk.h 1 y else blk.h x y
      hu := fun x y => if x = 0 ∧ 1 ≤ y ∧ y ≤ blk.ny then blk.hu 1 y else blk.hu x y
      hv := fun x y => if x = 0 ∧ 1 ≤ y ∧ y ≤ blk.ny then blk.hv 1 y else blk.hv x y }
  | CONNECT => blk
  | PASSIVE => blk

/-- Right-boundary switch of SWE_Block::applyBoundaryConditions (lines 418 to 443):
ghost column nx+1 is filled from interior column nx. -/
def applyBoundaryRight (blk : Block) : Block :=
  match blk.boundaryType BND_RIGHT with
  | WALL =>
    { blk with
      h := fun x y => if x = blk.nx + 1 ∧ 1 ≤ y ∧ y ≤ blk.ny then blk.h blk.nx y else blk.h x y
      hu := fun x y => if x = blk.nx + 1 ∧ 1 ≤ y ∧ y ≤ blk.ny then -blk.hu blk.nx y else blk.hu x y
      hv := fun x y => if x = blk.nx + 1 ∧ 1 ≤ y ∧ y ≤ blk.ny then blk.hv blk.nx y else blk.hv x y }
  | OUTFLOW =>
    { blk with
      h := fun x y => if x = blk.nx + 1 ∧ 1 ≤ y ∧ y ≤ blk.ny then blk.h blk.nx y else blk.h x y
      hu := fun x y => if x = blk.nx + 1 ∧ 1 ≤ y ∧ y ≤ blk.ny then blk.hu blk.nx y else blk.hu x y
      hv := fun x y => if x = blk.nx + 1 ∧ 1 ≤ y ∧ y ≤ blk.ny then blk.hv blk.nx y else blk.hv x y }
  | CONNECT => blk
  | PASSIVE => blk

/-- Bottom-boundary switch of SWE_Block::applyBoundaryConditions (lines 446 to 471):
ghost row 0 is filled from interior row 1; WALL negates hv. -/
def applyBoundaryBottom (blk : Block) : Block :=
  match blk.boundaryType BND_BOTTOM with
  | WALL =>
    { blk with
      h := fun x y => if 1 ≤ x ∧ x ≤ blk.nx ∧ y = 0 then blk.h x 1 else blk.h x y
      hu := fun x y => if 1 ≤ x ∧ x ≤ blk.nx ∧ y = 0 then blk.hu x 1 else blk.hu x y
      hv := fun x y => if 1 ≤ x ∧ x ≤ blk.nx ∧ y = 0 then -blk.hv x 1 else blk.hv x y }
  | OUTFLOW =>
    { blk with
      h := fun x y => if 1 ≤ x ∧ x ≤ blk.nx ∧ y = 0 then blk.h x 1 else blk.h x y
      hu := fun x y => if 1 ≤ x ∧ x ≤ blk.nx ∧ y = 0 then blk.hu x 1 else blk.hu x y
      hv := fun x y => if 1 ≤ x ∧ x ≤ blk.nx ∧ y = 0 then blk.hv x 1 else blk.hv x y }
  | CONNECT => blk
  | PASSIVE => blk

/-- Top-boundary switch of SWE_Block::applyBoundaryConditions (lines 474 to 499):
ghost row ny+1 is filled from interior row ny; WALL negates hv. -/
def applyBoundaryTop (blk : Block) : Block :=
  match blk.boundaryType BND_TOP with
  | WALL =>
    { blk with
      h := fun x y => if 1 ≤ x ∧ x ≤ blk.nx ∧ y = blk.ny + 1 then blk.h x blk.ny else blk.h x y
      hu := fun x y => if 1 ≤ x ∧ x ≤ blk.nx ∧ y = blk.ny + 1 then blk.hu x blk.ny else blk.hu x y
      hv := fun x y => if 1 ≤ x ∧ x ≤ blk.nx ∧ y = blk.ny + 1 then -blk.hv x blk.ny else blk.hv x y }
  | OUTFLOW =>
    { blk with
      h := fun x y => if 1 ≤ x ∧ x ≤ blk.nx ∧ y = blk.ny + 1 then blk.h x blk.ny else blk.h x y
      hu := fun x y => if 1 ≤ x ∧ x ≤ blk.nx ∧ y = blk.ny + 1 then blk.hu x blk.ny else blk.hu x y
      hv := fun x y => if 1 ≤ x ∧ x ≤ blk.nx ∧ y = blk.ny + 1 then blk.hv x blk.ny else blk.hv x y }
  | CONNECT => blk
  | PASSIVE => blk

/-- Corner ghost-cell writes at the end of SWE_Block::applyBoundaryConditions
(lines 527 to 541): the four corner ghost cells take the diagonal interior
neighbour; the reads are interior cells that the corner writes never touch. -/
def applyBoundaryCorners (blk : Block) : Block :=
  { blk with
    h := fun x y =>
      if x = 0 ∧ y = 0 then blk.h 1 1
      else if x = 0 ∧ y = blk.ny + 1 then blk.h 1 blk.ny
      else if x = blk.nx + 1 ∧ y = 0 then blk.h blk.nx 1
      else if x = blk.nx + 1 ∧ y = blk.ny + 1 then blk.h blk.nx blk.ny
      else blk.h x y
    hu := fun x y =>
      if x = 0 ∧ y = 0 then blk.hu 1 1
      else if x = 0 ∧ y = blk.ny + 1 then blk.hu 1 blk.ny
      else if x = blk.nx + 1 ∧ y = 0 then blk.hu blk.nx 1
      else if x = blk.nx + 1 ∧ y = blk.ny + 1 then blk.hu blk.nx blk.ny
      else blk.hu x y
    hv := fun x y =>
      if x = 0 ∧ y = 0 then blk.hv 1 1
      else if x = 0 ∧ y = blk.ny + 1 then blk.hv 1 blk.ny
      else if x = blk.nx + 1 ∧ y = 0 then blk.hv blk.nx 1
      else if x = blk.nx + 1 ∧ y = blk.ny + 1 then blk.hv blk.nx blk.ny
      else blk.hv x y }

/-- SWE_Block::applyBoundaryConditions (lines 385 to 542): the four edge
switches run in order left, right, bottom, top, then the corner writes. -/
def applyBoundaryConditions (blk : Block) : Block :=
  applyBoundaryCorners (applyBoundaryTop (applyBoundaryBottom (applyBoundaryRight (applyBoundaryLeft blk))))

/-- Left part of SWE_Block::applyBoundaryBathymetry (lines 354 to 356): on
OUTFLOW or WALL, memcpy of the full column 1 (all ny+2 entries) into ghost
column 0. -/
def applyBathymetryLeft (blk : Block) : Block :=
  if blk.boundaryType BND_LEFT = OUTFLOW ∨ blk.boundaryType BND_LEFT = WALL then
    { blk with b := fun x y => if x = 0 ∧ y ≤ blk.ny + 1 then blk.b 1 y else blk.b x y }
  else blk

/-- Right part of SWE_Block::applyBoundaryBathymetry (lines 357 to 359). -/
def applyBathymetryRight (blk : Block) : Block :=
  if blk.boundaryType BND_RIGHT = OUTFLOW ∨ blk.boundaryType BND_RIGHT = WALL then
    { blk with b := fun x y => if x = blk.nx + 1 ∧ y ≤ blk.ny + 1 then blk.b blk.nx y else blk.b x y }
  else blk

/-- Bottom part of SWE_Block::applyBoundaryBathymetry (lines 360 to 364):
the loop covers x from 0 to nx+1 inclusive. -/
def applyBathymetryBottom (blk : Block) : Block :=
  if blk.boundaryType BND_BOTTOM = OUTFLOW ∨ blk.boundaryType BND_BOTTOM = WALL then
    { blk with b := fun x y => if x ≤ blk.nx + 1 ∧ y = 0 then blk.b x 1 else blk.b x y }
  else blk

/-- Top part of SWE_Block::applyBoundaryBathymetry (lines 365 to 369). -/
def applyBathymetryTop (blk : Block) : Block :=
  if blk.boundaryType BND_TOP = OUTFLOW ∨ blk.boundaryType BND_TOP = WALL then
    { blk with b := fun x y => if x ≤ blk.nx + 1 ∧ y = blk.ny + 1 then blk.b x blk.ny else blk.b x y }
  else blk

/-- Unconditional corner writes of SWE_Block::applyBoundaryBathymetry
(lines 372 to 375). -/
def applyBathymetryCorners (blk : Block) : Block :=
  { blk with
    b := fun x y =>
      if x = 0 ∧ y = 0 then blk.b 1 1
      else if x = 0 ∧ y = blk.ny + 1 then blk.b 1 blk.ny
      else if x = blk.nx + 1 ∧ y = 0 then blk.b blk.nx 1
      else if x = blk.nx + 1 ∧ y = blk.ny + 1 then blk.b blk.nx blk.ny
      else blk.b x y }

/-- SWE_Block::applyBoundaryBathymetry (lines 352 to 376): edge copies in
order left, right, bottom, top, then the corner writes. -/
def applyBoundaryBathymetry (blk : Block) : Block :=
  applyBathymetryCorners (applyBathymetryTop (applyBathymetryBottom (applyBathymetryRight (applyBathymetryLeft blk))))

/-- Incoming copy-layer message (class copyLayer of
SWE_DimensionalSplittingCharm.hh): the sender edge tag, the bathymetry flag
and the four payload arrays, rendered as index functions. -/
structure CopyLayerMsg where
  boundary : Boundary
  containsBathymetry : Bool
  b : Nat → ℚ
  h : Nat → ℚ
  hu : Nat → ℚ
  hv : Nat → ℚ

/-- SWE_DimensionalSplittingCharm::processCopyLayer (lines 184 to 222): an
if-else chain on the message tag paired with the CONNECT check of the
receiver edge opposite to the tag; each branch copies the payload into the
matching ghost strip (b only when containsBathymetry); no branch matching
means the message is dropped without touching any field.  Each loop writes
distinct ghost cells of the strip and reads no grid cell, so it is rendered
pointwise. -/
def processCopyLayer (blk : Block) (msg : CopyLayerMsg) : Block :=
  if msg.boundary = BND_RIGHT ∧ blk.boundaryType BND_LEFT = CONNECT then
    { blk with
      b := fun x y =>
        if msg.containsBathymetry = true ∧ x = 0 ∧ 1 ≤ y ∧ y ≤ blk.ny then msg.b (y - 1)
        else blk.b x y
      h := fun x y => if x = 0 ∧ 1 ≤ y ∧ y ≤ blk.ny then msg.h (y - 1) else blk.h x y
      hu := fun x y => if x = 0 ∧ 1 ≤ y ∧ y ≤ blk.ny then msg.hu (y - 1) else blk.hu x y
      hv := fun x y => if x = 0 ∧ 1 ≤ y ∧ y ≤ blk.ny then msg.hv (y - 1) else blk.hv x y }
  else if msg.boundary = BND_LEFT ∧ blk.boundaryType BND_RIGHT = CONNECT then
    { blk with
      b := fun x y =>
        if msg.containsBathymetry = true ∧ x = blk.nx + 1 ∧ 1 ≤ y ∧ y ≤ blk.ny then msg.b (y - 1)
        else blk.b x y
      h := fun x y => if x = blk.nx + 1 ∧ 1 ≤ y ∧ y ≤ blk.ny then msg.h (y - 1) else blk.h x y
      hu := fun x y => if x = blk.nx + 1 ∧ 1 ≤ y ∧ y ≤ blk.ny then msg.hu (y - 1) else blk.hu x y
      hv := fun x y => if x = blk.nx + 1 ∧ 1 ≤ y ∧ y ≤ blk.ny then msg.hv (y - 1) else blk.hv x y }
  else if msg.boundary = BND_TOP ∧ blk.boundaryType BND_BOTTOM = CONNECT then
    { blk with
      b := fun x y =>
        if msg.containsBathymetry = true ∧ 1 ≤ x ∧ x ≤ blk.nx ∧ y = 0 then msg.b (x - 1)
        else blk.b x y
      h := fun x y => if 1 ≤ x ∧ x ≤ blk.nx ∧ y = 0 then msg.h (x - 1) else blk.h x y
      hu := fun x y => if 1 ≤ x ∧ x ≤ blk.nx ∧ y = 0 then msg.hu (x - 1) else blk.hu x y
      hv := fun x y => if 1 ≤ x ∧ x ≤ blk.nx ∧ y = 0 then msg.hv (x - 1) else blk.hv x y }
  else if msg.boundary = BND_BOTTOM ∧ blk.boundaryType BND_TOP = CONNECT then
    { blk with
      b := fun x y =>
        if msg.containsBathymetry = true ∧ 1 ≤ x ∧ x ≤ blk.nx ∧ y = blk.ny + 1 then msg.b (x - 1)
        else blk.b x y
      h := fun x y => if 1 ≤ x ∧ x ≤ blk.nx ∧ y = blk.ny + 1 then msg.h (x - 1) else blk.h x y
      hu := fun x y => if 1 ≤ x ∧ x ≤ blk.nx ∧ y = blk.ny + 1 then msg.hu (x - 1) else blk.hu x y
      hv := fun x y => if 1 ≤ x ∧ x ≤ blk.nx ∧ y = blk.ny + 1 then msg.hv (x - 1) else blk.hv x y }
  else blk

/-- Modelled from the spec: the Float2DNative container (a repository file not
under src/) stores fields column-major with the element at (x, y) at linear
offset x * (ny + 2) + y, and getRawPointer exposes exactly this layout
(spec section 4.1). -/
def rawGet (ny : Nat) (f : Nat → Nat → ℚ) (k : Nat) : ℚ :=
  f (k / (ny + 2)) (k % (ny + 2))

/-- Outgoing copy-layer message as built by sendCopyLayers; payload arrays are
lists whose lengths match the allocated message sizes. -/
structure OutMsg where
  boundary : Boundary
  containsBathymetry : Bool
  b : List ℚ
  h : List ℚ
  hu : List ℚ
  hv : List ℚ

/-- Left branch of SWE_DimensionalSplittingCharm::sendCopyLayers
(lines 237 to 256): when the left boundary is CONNECT, pack the contiguous
run of ny raw elements starting at linear offset (ny + 2) + 1 for h, hu, hv
(and b when sendBathymetry, else the b array has length zero). -/
def sendCopyLayerLeft (blk : Block) (sendBathymetry : Bool) : Option OutMsg :=
  if blk.boundaryType BND_LEFT = CONNECT then
    some
      { boundary := BND_LEFT
        containsBathymetry := sendBathymetry
        b := if sendBathymetry = true then
            (List.range blk.ny).map (fun i => rawGet blk.ny blk.b (blk.ny + 2 + 1 + i))
          else []
        h := (List.range blk.ny).map (fun i => rawGet blk.ny blk.h (blk.ny + 2 + 1 + i))
        hu := (List.range blk.ny).map (fun i => rawGet blk.ny blk.hu (blk.ny + 2 + 1 + i))
        hv := (List.range blk.ny).map (fun i => rawGet blk.ny blk.hv (blk.ny + 2 + 1 + i)) }
  else none

/-- Right branch of sendCopyLayers (lines 258 to 277): contiguous run of ny
raw elements starting at nx * (ny + 2) + 1. -/
def sendCopyLayerRight (blk : Block) (sendBathymetry : Bool) : Option OutMsg :=
  if blk.boundaryType BND_RIGHT = CONNECT then
    some
      { boundary := BND_RIGHT
        containsBathymetry := sendBathymetry
        b := if sendBathymetry = true then
            (List.range blk.ny).map (fun i => rawGet blk.ny blk.b (blk.nx * (blk.ny + 2) + 1 + i))
          else []
        h := (List.range blk.ny).map (fun i => rawGet blk.ny blk.h (blk.nx * (blk.ny + 2) + 1 + i))
        hu := (List.range blk.ny).map (fun i => rawGet blk.ny blk.hu (blk.nx * (blk.ny + 2) + 1 + i))
        hv := (List.range blk.ny).map (fun i => rawGet blk.ny blk.hv (blk.nx * (blk.ny + 2) + 1 + i)) }
  else none

/-- Bottom branch of sendCopyLayers (lines 279 to 301): strided gather of nx
raw elements, stride ny + 2, starting at (ny + 2) + 1. -/
def sendCopyLayerBottom (blk : Block) (sendBathymetry : Bool) : Option OutMsg :=
  if blk.boundaryType BND_BOTTOM = CONNECT then
    some
      { boundary := BND_BOTTOM
        containsBathymetry := sendBathymetry
        b := if sendBathymetry = true then
            (List.range blk.nx).map
              (fun i => rawGet blk.ny blk.b (blk.ny + 2 + 1 + i * (blk.ny + 2)))
          else []
        h := (List.range blk.nx).map
          (fun i => rawGet blk.ny blk.h (blk.ny + 2 + 1 + i * (blk.ny + 2)))
        hu := (List.range blk.nx).map
          (fun i => rawGet blk.ny blk.hu (blk.ny + 2 + 1 + i * (blk.ny + 2)))
        hv := (List.range blk.nx).map
          (fun i => rawGet blk.ny blk.hv (blk.ny + 2 + 1 + i * (blk.ny + 2))) }
  else none

/-- Top branch of sendCopyLayers (lines 303 to 325): strided gather of nx raw
elements, stride ny + 2, starting at (ny + 2) + ny. -/
def sendCopyLayerTop (blk : Block) (sendBathymetry : Bool) : Option OutMsg :=
  if blk.boundaryType BND_TOP = CONNECT then
    some
      { boundary := BND_TOP
        containsBathymetry := sendBathymetry
        b := if sendBathymetry = true then
            (List.range blk.nx).map
              (fun i => rawGet blk.ny blk.b (blk.ny + 2 + blk.ny + i * (blk.ny + 2)))
          else []
        h := (List.range blk.nx).map
          (fun i => rawGet blk.ny blk.h (blk.ny + 2 + blk.ny + i * (blk.ny + 2)))
        hu := (List.range blk.nx).map
          (fun i => rawGet blk.ny blk.hu (blk.ny + 2 + blk.ny + i * (blk.ny + 2)))
        hv := (List.range blk.nx).map
          (fun i => rawGet blk.ny blk.hv (blk.ny + 2 + blk.ny + i * (blk.ny + 2))) }
  else none

/-- SWE_DimensionalSplittingCharm::sendCopyLayers (lines 224 to 326): one
optional outgoing message per edge, built only when that edge is CONNECT. -/
def sendCopyLayers (blk : Block) (sendBathymetry : Bool) :
    Option OutMsg × Option OutMsg × Option OutMsg × Option OutMsg :=
  (sendCopyLayerLeft blk sendBathymetry, sendCopyLayerRight blk sendBathymetry,
    sendCopyLayerBottom blk sendBathymetry, sendCopyLayerTop blk sendBathymetry)

/-- Checkpoint time delta of the constructor (line 56):
simulationDuration / checkpointCount. -/
def checkpointTimeDelta (simulationDuration : ℚ) (checkpointCount : Nat) : ℚ :=
  simulationDuration / checkpointCount

/-- Checkpoint schedule of the constructor (lines 58 to 61): entry 0 is the
delta, every further entry adds the delta to its predecessor. -/
def checkpointInstantOfTime (simulationDuration : ℚ) (checkpointCount : Nat) : Nat → ℚ
  | 0 => checkpointTimeDelta simulationDuration checkpointCount
  | k + 1 =>
    checkpointInstantOfTime simulationDuration checkpointCount k +
      checkpointTimeDelta simulationDuration checkpointCount

/-- Time-step coordinator state relevant to the constructor: simulation clock,
checkpoint index, checkpoint schedule and the log of simulation times at
which writeTimestep emitted output. -/
structure CoordinatorState where
  currentSimulationTime : ℚ
  currentCheckpoint : Nat
  checkpointTimes : Nat → ℚ
  writeLog : List ℚ

/-- SWE_DimensionalSplittingCharm::writeTimestep (lines 328 to 330): emit the
current fields at the current simulation time. -/
def writeTimestep (s : CoordinatorState) : CoordinatorState :=
  { s with writeLog := s.writeLog ++ [s.currentSimulationTime] }

/-- Coordinator part of the SWE_DimensionalSplittingCharm constructor
(lines 42 to 75): the clock starts at 0, the checkpoint index at 0, the
schedule is computed, and writeTimestep runs once before any step. -/
def constructCoordinator (simulationDuration : ℚ) (checkpointCount : Nat) : CoordinatorState :=
  writeTimestep
    { currentSimulationTime := 0
      currentCheckpoint := 0
      checkpointTimes := checkpointInstantOfTime simulationDuration checkpointCount
      writeLog := [] }

/-- Concrete sample block used to evaluate the theorems on explicit inputs. -/
def sampleBlock : Block where
  nx := 2
  ny := 2
  dx := 1
  dy := 2
  h := fun x y => (x : ℚ) + 10 * y
  hu := fun x y => (x : ℚ) - 2 * y
  hv := fun x y => 3 * (x : ℚ) + y
  b := fun x y => (x : ℚ) * y - 7
  hNetUpdatesLeft := fun x y => (x : ℚ) + y / 2
  hNetUpdatesRight := fun x y => (x : ℚ) - y / 3
  huNetUpdatesLeft := fun x y => 2 * (x : ℚ) + y
  huNetUpdatesRight := fun x y => (x : ℚ) + 5 * y
  hNetUpdatesBelow := fun x y => (x : ℚ) * y + 1
  hNetUpdatesAbove := fun x y => (x : ℚ) - y
  hvNetUpdatesBelow := fun x y => 4 * (x : ℚ) - y
  hvNetUpdatesAbove := fun x y => (x : ℚ) + y + 1
  maxTimestep := 3
  boundaryType := fun _ => WALL

/-- Concrete sample block whose boundary types exercise all four kinds:
WALL on the left, OUTFLOW on the right, CONNECT at the bottom, PASSIVE on top. -/
def mixedBlock : Block :=
  { sampleBlock with
    boundaryType := fun e =>
      match e with
      | BND_LEFT => WALL
      | BND_RIGHT => OUTFLOW
      | BND_BOTTOM => CONNECT
      | BND_TOP => PASSIVE }

/-- Concrete block with every edge CONNECT, for the copy-layer theorems. -/
def connectBlock : Block :=
  { sampleBlock with boundaryType := fun _ => CONNECT }

/-- Concrete block with every edge PASSIVE, for the message-discard theorem. -/
def passiveBlock : Block :=
  { sampleBlock with boundaryType := fun _ => PASSIVE }

/-- Concrete incoming copy-layer message tagged with the sender right edge. -/
def sampleMsg : CopyLayerMsg where
  boundary := BND_RIGHT
  containsBathymetry := true
  b := fun i => (i : ℚ) + 100
  h := fun i => (i : ℚ) + 200
  hu := fun i => (i : ℚ) + 300
  hv := fun i => (i : ℚ) + 400

/-- Concrete solver used to evaluate the flux-driver theorems: the wave speed
equals the left momentum argument, so the x-sweep (fed with hu) and the
y-sweep (fed with hv) reach different maxima on sampleFluxBlock. -/
def sampleSolver : Solver := fun hL hR huL huR bL bR =>
  { netUpdateLeftH := hL + hR
    netUpdateRightH := hL - hR
    netUpdateLeftHu := huL + huR + bL
    netUpdateRightHu := huL - huR + bR
    waveSpeed := huL }

/-- Concrete block on which sampleSolver yields maxHorizontalWaveSpeed = 1 and
maxVerticalWaveSpeed = 2 while dx = 1 and dy = 2. -/
def sampleFluxBlock : Block :=
  { sampleBlock with
    nx := 1
    ny := 1
    dx := 1
    dy := 2
    h := fun _ _ => 0
    hu := fun _ _ => 1
    hv := fun _ _ => 2
    b := fun _ _ => 0 }

/-! Theorems. -/

/-- Closed form of the recursive checkpoint schedule. -/
theorem checkpointInstantOfTime_closed (D : ℚ) (C : Nat) (k : Nat) :
    checkpointInstantOfTime D C k = (k + 1) * D / C := by
  induction k with
  | zero =>
    simp [checkpointInstantOfTime, checkpointTimeDelta]
  | succ n ih =>
    rw [checkpointInstantOfTime, ih, checkpointTimeDelta]
    push_cast
    ring

/-- C8: after construction, checkpointInstantOfTime[k] equals
(k + 1) * simulationDuration / checkpointCount for every k below
checkpointCount, and the write log already holds exactly one output, taken at
simulation time 0, before the step loop starts. -/
theorem construct_checkpoint_schedule (D : ℚ) (C : Nat) (k : Nat) (hk : k < C) :
    (constructCoordinator D C).checkpointTimes k = (k + 1) * D / C ∧
      (constructCoordinator D C).writeLog = [(0 : ℚ)] ∧
      (constructCoordinator D C).currentSimulationTime = 0 := by
  refine ⟨?_, rfl, rfl⟩
  exact checkpointInstantOfTime_closed D C k

/-- Witness for construct_checkpoint_schedule at D = 10, C = 4, k = 2. -/
theorem construct_checkpoint_schedule_witness :
    (constructCoordinator 10 4).checkpointTimes 2 = (2 + 1) * 10 / 4 ∧
      (constructCoordinator 10 4).writeLog = [(0 : ℚ)] ∧
      (constructCoordinator 10 4).currentSimulationTime = 0 :=
  construct_checkpoint_schedule 10 4 2 (by decide)

/-- C10: a message whose tag does not pair with a CONNECT boundary on the
receiver edge opposite to the tag is silently discarded: processCopyLayer
returns the block with all four fields unchanged. -/
theorem processCopyLayer_discards_unmatched (blk : Block) (msg : CopyLayerMsg)
    (h1 : ¬(msg.boundary = BND_RIGHT ∧ blk.boundaryType BND_LEFT = CONNECT))
    (h2 : ¬(msg.boundary = BND_LEFT ∧ blk.boundaryType BND_RIGHT = CONNECT))
    (h3 : ¬(msg.boundary = BND_TOP ∧ blk.boundaryType BND_BOTTOM = CONNECT))
    (h4 : ¬(msg.boundary = BND_BOTTOM ∧ blk.boundaryType BND_TOP = CONNECT)) :
    processCopyLayer blk msg = blk := by
  unfold processCopyLayer
  rw [if_neg h1, if_neg h2, if_neg h3, if_neg h4]

/-- Witness for processCopyLayer_discards_unmatched: a RIGHT-tagged message
arriving at a block whose every edge is PASSIVE changes nothing. -/
theorem processCopyLayer_discards_unmatched_witness :
    processCopyLayer passiveBlock sampleMsg = passiveBlock :=
  processCopyLayer_discards_unmatched passiveBlock sampleMsg (by decide) (by decide)
    (by decide) (by decide)

/-- C5: updateUnknowns checks abs(dt - maxTimestep) < 1e-5 before touching any
cell: when the distance is at least 1e-5 it aborts (none) without modifying
anything, and under the precondition the assertion branch is not taken and the
interior update applyNetUpdates is performed. -/
theorem updateUnknowns_assertion (blk : Block) (dt : ℚ) :
    (1 / 100000 ≤ |dt - blk.maxTimestep| → updateUnknowns blk dt = none) ∧
      (|dt - blk.maxTimestep| < 1 / 100000 →
        updateUnknowns blk dt = some (applyNetUpdates blk dt)) := by
  constructor
  · intro hge
    unfold updateUnknowns
    rw [if_neg (not_lt.mpr hge)]
  · intro hlt
    unfold updateUnknowns
    rw [if_pos hlt]

/-- Witness for updateUnknowns_assertion on sampleBlock (maxTimestep = 3):
dt = 4 aborts, dt = 3 performs the update. -/
theorem updateUnknowns_assertion_witness :
    updateUnknowns sampleBlock 4 = none ∧
      updateUnknowns sampleBlock 3 = some (applyNetUpdates sampleBlock 3) :=
  ⟨(updateUnknowns_assertion sampleBlock 4).1 (by norm_num [sampleBlock]),
    (updateUnknowns_assertion sampleBlock 3).2 (by norm_num [sampleBlock])⟩

/-- C2: whenever updateUnknowns succeeds, every interior cell (x, y) receives
h minus (dt/dx) times the sum of the two horizontal h updates minus (dt/dy)
times the sum of the two vertical h updates, hu minus (dt/dx) times the sum of
the two horizontal hu updates, and hv minus (dt/dy) times the sum of the two
vertical hv updates, all reads taken from the pre-step buffers. -/
theorem updateUnknowns_interior (blk : Block) (dt : ℚ) (x y : Nat) (blkU : Block)
    (hx1 : 1 ≤ x) (hx2 : x ≤ blk.nx) (hy1 : 1 ≤ y) (hy2 : y ≤ blk.ny)
    (hsome : updateUnknowns blk dt = some blkU) :
    blkU.h x y =
        blk.h x y - (dt / blk.dx) * (blk.hNetUpdatesRight x y + blk.hNetUpdatesLeft x y)
          - (dt / blk.dy) * (blk.hNetUpdatesAbove x y + blk.hNetUpdatesBelow x y) ∧
      blkU.hu x y =
        blk.hu x y - (dt / blk.dx) * (blk.huNetUpdatesRight x y + blk.huNetUpdatesLeft x y) ∧
      blkU.hv x y =
        blk.hv x y - (dt / blk.dy) * (blk.hvNetUpdatesAbove x y + blk.hvNetUpdatesBelow x y) := by
  have hU : blkU = applyNetUpdates blk dt := by
    unfold updateUnknowns at hsome
    split at hsome
    · exact (Option.some.inj hsome).symm
    · cases hsome
  subst hU
  have hc : 1 ≤ x ∧ x ≤ blk.nx ∧ 1 ≤ y ∧ y ≤ blk.ny := ⟨hx1, hx2, hy1, hy2⟩
  unfold applyNetUpdates
  refine ⟨?_, ?_, ?_⟩ <;> simp only [if_pos hc] <;> ring

/-- Witness for updateUnknowns_interior on sampleBlock at cell (1, 1)
with dt = 3. -/
theorem updateUnknowns_interior_witness :
    (applyNetUpdates sampleBlock 3).h 1 1 =
        sampleBlock.h 1 1
          - (3 / sampleBlock.dx) * (sampleBlock.hNetUpdatesRight 1 1 + sampleBlock.hNetUpdatesLeft 1 1)
          - (3 / sampleBlock.dy) * (sampleBlock.hNetUpdatesAbove 1 1 + sampleBlock.hNetUpdatesBelow 1 1) ∧
      (applyNetUpdates sampleBlock 3).hu 1 1 =
        sampleBlock.hu 1 1
          - (3 / sampleBlock.dx) * (sampleBlock.huNetUpdatesRight 1 1 + sampleBlock.huNetUpdatesLeft 1 1) ∧
      (applyNetUpdates sampleBlock 3).hv 1 1 =
        sampleBlock.hv 1 1
          - (3 / sampleBlock.dy) * (sampleBlock.hvNetUpdatesAbove 1 1 + sampleBlock.hvNetUpdatesBelow 1 1) :=
  updateUnknowns_interior sampleBlock 3 1 1 (applyNetUpdates sampleBlock 3)
    (by decide) (by decide) (by decide) (by decide)
    (by unfold updateUnknowns; rw [if_pos (by norm_num [sampleBlock])])

/-- Evaluation of the final x-sweep wave speed on the concrete flux block. -/
theorem maxHorizontalWaveSpeed_sample :
    maxHorizontalWaveSpeed sampleSolver sampleFluxBlock = 1 := by
  simp [maxHorizontalWaveSpeed, xSweepPairs, xSweepCall, sampleSolver, sampleFluxBlock,
    sampleBlock, List.range_succ]

/-- Evaluation of the final y-sweep wave speed on the concrete flux block. -/
theorem maxVerticalWaveSpeed_sample :
    maxVerticalWaveSpeed sampleSolver sampleFluxBlock = 2 := by
  simp [maxVerticalWaveSpeed, ySweepPairs, ySweepCall, sampleSolver, sampleFluxBlock,
    sampleBlock, List.range_succ]

/-- C1 counterexample: on sampleFluxBlock with sampleSolver the final wave
speeds are 1 (horizontal) and 2 (vertical), both positive, yet maxTimestep is
0.4 * min(dx / maxWaveSpeed, dy / maxWaveSpeed) = 1/5 with the combined
maxWaveSpeed = 2, not 0.4 * min(dx / Wx, dy / Wy) = 2/5: the two directional
quotients are not computed with separate wave speeds. -/
theorem computeNumericalFluxes_maxTimestep_cex :
    0 < maxHorizontalWaveSpeed sampleSolver sampleFluxBlock ∧
      0 < maxVerticalWaveSpeed sampleSolver sampleFluxBlock ∧
      (computeNumericalFluxes sampleSolver sampleFluxBlock).maxTimestep ≠
        2 / 5 *
          min (sampleFluxBlock.dx / maxHorizontalWaveSpeed sampleSolver sampleFluxBlock)
            (sampleFluxBlock.dy / maxVerticalWaveSpeed sampleSolver sampleFluxBlock) := by
  refine ⟨by rw [maxHorizontalWaveSpeed_sample]; norm_num,
    by rw [maxVerticalWaveSpeed_sample]; norm_num, ?_⟩
  show min _ _ * (2 / 5) ≠ _
  rw [maxHorizontalWaveSpeed_sample, maxVerticalWaveSpeed_sample]
  norm_num [sampleFluxBlock, sampleBlock, max_def, min_def]

/-- C1 amended: with both final wave speeds positive, the block maxTimestep
after computeNumericalFluxes equals 0.4 * min(dx, dy) / maxWaveSpeed where
maxWaveSpeed = max(maxHorizontalWaveSpeed, maxVerticalWaveSpeed): both
quotients are taken with the single combined maximum wave speed. -/
theorem computeNumericalFluxes_maxTimestep (solver : Solver) (blk : Block)
    (hx : 0 < maxHorizontalWaveSpeed solver blk)
    (hy : 0 < maxVerticalWaveSpeed solver blk) :
    (computeNumericalFluxes solver blk).maxTimestep =
      2 / 5 *
        (min blk.dx blk.dy /
          max (maxHorizontalWaveSpeed solver blk) (maxVerticalWaveSpeed solver blk)) := by
  have hW : (0 : ℚ) ≤ max (maxHorizontalWaveSpeed solver blk) (maxVerticalWaveSpeed solver blk) :=
    le_of_lt (lt_max_of_lt_left hx)
  show min _ _ * (2 / 5) = _
  rw [min_div_div_right hW]
  ring

/-- Witness for computeNumericalFluxes_maxTimestep on sampleFluxBlock with
sampleSolver. -/
theorem computeNumericalFluxes_maxTimestep_witness :
    (computeNumericalFluxes sampleSolver sampleFluxBlock).maxTimestep =
      2 / 5 *
        (min sampleFluxBlock.dx sampleFluxBlock.dy /
          max (maxHorizontalWaveSpeed sampleSolver sampleFluxBlock)
            (maxVerticalWaveSpeed sampleSolver sampleFluxBlock)) :=
  computeNumericalFluxes_maxTimestep sampleSolver sampleFluxBlock
    (by rw [maxHorizontalWaveSpeed_sample]; norm_num)
    (by rw [maxVerticalWaveSpeed_sample]; norm_num)

/-- C6: processCopyLayer writes an incoming message into the ghost strip
opposite to its tag, and only when the receiver opposite boundary is CONNECT:
a RIGHT-tagged message with the receiver LEFT boundary CONNECT fills h, hu, hv
at column x = 0 for y in [1, ny] from the message arrays in order, and b
exactly when containsBathymetry holds; symmetrically a LEFT-tagged message
fills column x = nx + 1, a TOP-tagged message fills row y = 0 and a
BOTTOM-tagged message fills row y = ny + 1, for x in [1, nx]. -/
theorem processCopyLayer_fills (blk : Block) (msg : CopyLayerMsg) (x y : Nat)
    (hx1 : 1 ≤ x) (hx2 : x ≤ blk.nx) (hy1 : 1 ≤ y) (hy2 : y ≤ blk.ny) :
    (msg.boundary = BND_RIGHT → blk.boundaryType BND_LEFT = CONNECT →
      (processCopyLayer blk msg).h 0 y = msg.h (y - 1) ∧
        (processCopyLayer blk msg).hu 0 y = msg.hu (y - 1) ∧
        (processCopyLayer blk msg).hv 0 y = msg.hv (y - 1) ∧
        (msg.containsBathymetry = true → (processCopyLayer blk msg).b 0 y = msg.b (y - 1)) ∧
        (msg.containsBathymetry = false → (processCopyLayer blk msg).b 0 y = blk.b 0 y)) ∧
      (msg.boundary = BND_LEFT → blk.boundaryType BND_RIGHT = CONNECT →
        (processCopyLayer blk msg).h (blk.nx + 1) y = msg.h (y - 1) ∧
          (processCopyLayer blk msg).hu (blk.nx + 1) y = msg.hu (y - 1) ∧
          (processCopyLayer blk msg).hv (blk.nx + 1) y = msg.hv (y - 1) ∧
          (msg.containsBathymetry = true →
            (processCopyLayer blk msg).b (blk.nx + 1) y = msg.b (y - 1)) ∧
          (msg.containsBathymetry = false →
            (processCopyLayer blk msg).b (blk.nx + 1) y = blk.b (blk.nx + 1) y)) ∧
      (msg.boundary = BND_TOP → blk.boundaryType BND_BOTTOM = CONNECT →
        (processCopyLayer blk msg).h x 0 = msg.h (x - 1) ∧
          (processCopyLayer blk msg).hu x 0 = msg.hu (x - 1) ∧
          (processCopyLayer blk msg).hv x 0 = msg.hv (x - 1) ∧
          (msg.containsBathymetry = true → (processCopyLayer blk msg).b x 0 = msg.b (x - 1)) ∧
          (msg.containsBathymetry = false → (processCopyLayer blk msg).b x 0 = blk.b x 0)) ∧
      (msg.boundary = BND_BOTTOM → blk.boundaryType BND_TOP = CONNECT →
        (processCopyLayer blk msg).h x (blk.ny + 1) = msg.h (x - 1) ∧
          (processCopyLayer blk msg).hu x (blk.ny + 1) = msg.hu (x - 1) ∧
          (processCopyLayer blk msg).hv x (blk.ny + 1) = msg.hv (x - 1) ∧
          (msg.containsBathymetry = true →
            (processCopyLayer blk msg).b x (blk.ny + 1) = msg.b (x - 1)) ∧
          (msg.containsBathymetry = false →
            (processCopyLayer blk msg).b x (blk.ny + 1) = blk.b x (blk.ny + 1))) := by
  refine ⟨fun ht hc => ?_, fun ht hc => ?_, fun ht hc => ?_, fun ht hc => ?_⟩
  · unfold processCopyLayer
    rw [if_pos ⟨ht, hc⟩]
    exact ⟨by simp [hy1, hy2], by simp [hy1, hy2], by simp [hy1, hy2],
      fun hb => by simp [hb, hy1, hy2], fun hb => by simp [hb]⟩
  · unfold processCopyLayer
    rw [if_neg (by simp [ht]), if_pos ⟨ht, hc⟩]
    exact ⟨by simp [hy1, hy2], by simp [hy1, hy2], by simp [hy1, hy2],
      fun hb => by simp [hb, hy1, hy2], fun hb => by simp [hb]⟩
  · unfold processCopyLayer
    rw [if_neg (by simp [ht]), if_neg (by simp [ht]), if_pos ⟨ht, hc⟩]
    exact ⟨by simp [hx1, hx2], by simp [hx1, hx2], by simp [hx1, hx2],
      fun hb => by simp [hb, hx1, hx2], fun hb => by simp [hb]⟩
  · unfold processCopyLayer
    rw [if_neg (by simp [ht]), if_neg (by simp [ht]), if_neg (by simp [ht]), if_pos ⟨ht, hc⟩]
    exact ⟨by simp [hx1, hx2], by simp [hx1, hx2], by simp [hx1, hx2],
      fun hb => by simp [hb, hx1, hx2], fun hb => by simp [hb]⟩

/-- Witness for processCopyLayer_fills: a RIGHT-tagged message with bathymetry
into connectBlock fills the LEFT ghost column at (0, 2). -/
theorem processCopyLayer_fills_witness :
    (processCopyLayer connectBlock sampleMsg).h 0 2 = sampleMsg.h 1 ∧
      (processCopyLayer connectBlock sampleMsg).hu 0 2 = sampleMsg.hu 1 ∧
      (processCopyLayer connectBlock sampleMsg).hv 0 2 = sampleMsg.hv 1 ∧
      (processCopyLayer connectBlock sampleMsg).b 0 2 = sampleMsg.b 1 := by
  have hmain :=
    (processCopyLayer_fills connectBlock sampleMsg 1 2 (by decide) (by decide) (by decide)
        (by decide)).1 rfl rfl
  exact ⟨hmain.1, hmain.2.1, hmain.2.2.1, hmain.2.2.2.1 rfl⟩

/-- Raw linear offset x * (ny + 2) + y addresses exactly the element (x, y)
of the column-major layout. -/
theorem rawGet_at (ny : Nat) (f : Nat → Nat → ℚ) (x y : Nat) (hy : y < ny + 2) :
    rawGet ny f (x * (ny + 2) + y) = f x y := by
  unfold rawGet
  have hrw : x * (ny + 2) + y = (ny + 2) * x + y := by ring
  rw [hrw, Nat.mul_add_div (by omega), Nat.div_eq_of_lt hy, Nat.add_zero, Nat.mul_add_mod,
    Nat.mod_eq_of_lt hy]

/-- C7: for every CONNECT edge, sendCopyLayers packs exactly the adjacent
interior strip through the column-major raw layout: the LEFT message holds the
ny values of interior column x = 1 (contiguous from offset (ny+2)+1), the
RIGHT message interior column x = nx (contiguous from nx*(ny+2)+1), the BOTTOM
message the nx values of interior row y = 1 (stride ny+2 from (ny+2)+1), the
TOP message interior row y = ny (stride ny+2 from (ny+2)+ny); the same layout
serves h, hu, hv and, when bathymetry is piggybacked, b. -/
theorem sendCopyLayers_packs_interior_strips (blk : Block) (sb : Bool) :
    (blk.boundaryType BND_LEFT = CONNECT →
      sendCopyLayerLeft blk sb =
        some
          { boundary := BND_LEFT
            containsBathymetry := sb
            b := if sb = true then (List.range blk.ny).map (fun i => blk.b 1 (i + 1)) else []
            h := (List.range blk.ny).map (fun i => blk.h 1 (i + 1))
            hu := (List.range blk.ny).map (fun i => blk.hu 1 (i + 1))
            hv := (List.range blk.ny).map (fun i => blk.hv 1 (i + 1)) }) ∧
      (blk.boundaryType BND_RIGHT = CONNECT →
        sendCopyLayerRight blk sb =
          some
            { boundary := BND_RIGHT
              containsBathymetry := sb
              b := if sb = true then (List.range blk.ny).map (fun i => blk.b blk.nx (i + 1))
                else []
              h := (List.range blk.ny).map (fun i => blk.h blk.nx (i + 1))
              hu := (List.range blk.ny).map (fun i => blk.hu blk.nx (i + 1))
              hv := (List.range blk.ny).map (fun i => blk.hv blk.nx (i + 1)) }) ∧
      (blk.boundaryType BND_BOTTOM = CONNECT →
        sendCopyLayerBottom blk sb =
          some
            { boundary := BND_BOTTOM
              containsBathymetry := sb
              b := if sb = true then (List.range blk.nx).map (fun i => blk.b (i + 1) 1) else []
              h := (List.range blk.nx).map (fun i => blk.h (i + 1) 1)
              hu := (List.range blk.nx).map (fun i => blk.hu (i + 1) 1)
              hv := (List.range blk.nx).map (fun i => blk.hv (i + 1) 1) }) ∧
      (blk.boundaryType BND_TOP = CONNECT →
        sendCopyLayerTop blk sb =
          some
            { boundary := BND_TOP
              containsBathymetry := sb
              b := if sb = true then (List.range blk.nx).map (fun i => blk.b (i + 1) blk.ny)
                else []
              h := (List.range blk.nx).map (fun i => blk.h (i + 1) blk.ny)
              hu := (List.range blk.nx).map (fun i => blk.hu (i + 1) blk.ny)
              hv := (List.range blk.nx).map (fun i => blk.hv (i + 1) blk.ny) }) := by
  have eqL : ∀ f : Nat → Nat → ℚ, ∀ i ∈ List.range blk.ny,
      rawGet blk.ny f (blk.ny + 2 + 1 + i) = f 1 (i + 1) := by
    intro f i hi
    rw [List.mem_range] at hi
    have hrw : blk.ny + 2 + 1 + i = 1 * (blk.ny + 2) + (i + 1) := by ring
    rw [hrw, rawGet_at blk.ny f 1 (i + 1) (by omega)]
  have eqR : ∀ f : Nat → Nat → ℚ, ∀ i ∈ List.range blk.ny,
      rawGet blk.ny f (blk.nx * (blk.ny + 2) + 1 + i) = f blk.nx (i + 1) := by
    intro f i hi
    rw [List.mem_range] at hi
    have hrw : blk.nx * (blk.ny + 2) + 1 + i = blk.nx * (blk.ny + 2) + (i + 1) := by ring
    rw [hrw, rawGet_at blk.ny f blk.nx (i + 1) (by omega)]
  have eqB : ∀ f : Nat → Nat → ℚ, ∀ i ∈ List.range blk.nx,
      rawGet blk.ny f (blk.ny + 2 + 1 + i * (blk.ny + 2)) = f (i + 1) 1 := by
    intro f i _
    have hrw : blk.ny + 2 + 1 + i * (blk.ny + 2) = (i + 1) * (blk.ny + 2) + 1 := by ring
    rw [hrw, rawGet_at blk.ny f (i + 1) 1 (by omega)]
  have eqT : ∀ f : Nat → Nat → ℚ, ∀ i ∈ List.range blk.nx,
      rawGet blk.ny f (blk.ny + 2 + blk.ny + i * (blk.ny + 2)) = f (i + 1) blk.ny := by
    intro f i _
    have hrw : blk.ny + 2 + blk.ny + i * (blk.ny + 2) = (i + 1) * (blk.ny + 2) + blk.ny := by ring
    rw [hrw, rawGet_at blk.ny f (i + 1) blk.ny (by omega)]
  refine ⟨fun hL => ?_, fun hR => ?_, fun hB => ?_, fun hT => ?_⟩
  · unfold sendCopyLayerLeft
    rw [if_pos hL]
    congr 1
    cases sb <;>
      simp [List.map_congr_left (eqL blk.b), List.map_congr_left (eqL blk.h),
        List.map_congr_left (eqL blk.hu), List.map_congr_left (eqL blk.hv)]
  · unfold sendCopyLayerRight
    rw [if_pos hR]
    congr 1
    cases sb <;>
      simp [List.map_congr_left (eqR blk.b), List.map_congr_left (eqR blk.h),
        List.map_congr_left (eqR blk.hu), List.map_congr_left (eqR blk.hv)]
  · unfold sendCopyLayerBottom
    rw [if_pos hB]
    congr 1
    cases sb <;>
      simp [List.map_congr_left (eqB blk.b), List.map_congr_left (eqB blk.h),
        List.map_congr_left (eqB blk.hu), List.map_congr_left (eqB blk.hv)]
  · unfold sendCopyLayerTop
    rw [if_pos hT]
    congr 1
    cases sb <;>
      simp [List.map_congr_left (eqT blk.b), List.map_congr_left (eqT blk.h),
        List.map_congr_left (eqT blk.hu), List.map_congr_left (eqT blk.hv)]

/-- Witness for sendCopyLayers_packs_interior_strips on connectBlock (every
edge CONNECT) with bathymetry piggybacked, and on mixedBlock, whose only
CONNECT edge is the bottom one. -/
theorem sendCopyLayers_packs_interior_strips_witness :
    sendCopyLayerLeft connectBlock true =
        some
          { boundary := BND_LEFT
            containsBathymetry := true
            b := if true = true then
                (List.range connectBlock.ny).map (fun i => connectBlock.b 1 (i + 1))
              else []
            h := (List.range connectBlock.ny).map (fun i => connectBlock.h 1 (i + 1))
            hu := (List.range connectBlock.ny).map (fun i => connectBlock.hu 1 (i + 1))
            hv := (List.range connectBlock.ny).map (fun i => connectBlock.hv 1 (i + 1)) } ∧
      sendCopyLayerRight connectBlock true =
        some
          { boundary := BND_RIGHT
            containsBathymetry := true
            b := if true = true then
                (List.range connectBlock.ny).map (fun i => connectBlock.b connectBlock.nx (i + 1))
              else []
            h := (List.range connectBlock.ny).map (fun i => connectBlock.h connectBlock.nx (i + 1))
            hu := (List.range connectBlock.ny).map (fun i => connectBlock.hu connectBlock.nx (i + 1))
            hv := (List.range connectBlock.ny).map
              (fun i => connectBlock.hv connectBlock.nx (i + 1)) } ∧
      sendCopyLayerBottom connectBlock true =
        some
          { boundary := BND_BOTTOM
            containsBathymetry := true
            b := if true = true then
                (List.range connectBlock.nx).map (fun i => connectBlock.b (i + 1) 1)
              else []
            h := (List.range connectBlock.nx).map (fun i => connectBlock.h (i + 1) 1)
            hu := (List.range connectBlock.nx).map (fun i => connectBlock.hu (i + 1) 1)
            hv := (List.range connectBlock.nx).map (fun i => connectBlock.hv (i + 1) 1) } ∧
      sendCopyLayerTop connectBlock true =
        some
          { boundary := BND_TOP
            containsBathymetry := true
            b := if true = true then
                (List.range connectBlock.nx).map (fun i => connectBlock.b (i + 1) connectBlock.ny)
              else []
            h := (List.range connectBlock.nx).map (fun i => connectBlock.h (i + 1) connectBlock.ny)
            hu := (List.range connectBlock.nx).map
              (fun i => connectBlock.hu (i + 1) connectBlock.ny)
            hv := (List.range connectBlock.nx).map
              (fun i => connectBlock.hv (i + 1) connectBlock.ny) } ∧
      sendCopyLayerBottom mixedBlock true =
        some
          { boundary := BND_BOTTOM
            containsBathymetry := true
            b := if true = true then
                (List.range mixedBlock.nx).map (fun i => mixedBlock.b (i + 1) 1)
              else []
            h := (List.range mixedBlock.nx).map (fun i => mixedBlock.h (i + 1) 1)
            hu := (List.range mixedBlock.nx).map (fun i => mixedBlock.hu (i + 1) 1)
            hv := (List.range mixedBlock.nx).map (fun i => mixedBlock.hv (i + 1) 1) } := by
  have H := sendCopyLayers_packs_interior_strips connectBlock true
  have M := sendCopyLayers_packs_interior_strips mixedBlock true
  exact ⟨H.1 rfl, H.2.1 rfl, H.2.2.1 rfl, H.2.2.2 rfl, M.2.2.1 rfl⟩

/-- The left bathymetry copy writes only ghost column 0. -/
theorem applyBathymetryLeft_frame (blk : Block) (x y : Nat) (hx : x ≠ 0) :
    (applyBathymetryLeft blk).b x y = blk.b x y := by
  unfold applyBathymetryLeft
  split
  · simp [hx]
  · rfl

/-- The right bathymetry copy writes only ghost column nx + 1. -/
theorem applyBathymetryRight_frame (blk : Block) (x y : Nat) (hx : x ≠ blk.nx + 1) :
    (applyBathymetryRight blk).b x y = blk.b x y := by
  unfold applyBathymetryRight
  split
  · simp [hx]
  · rfl

/-- The bottom bathymetry copy writes only ghost row 0. -/
theorem applyBathymetryBottom_frame (blk : Block) (x y : Nat) (hy : y ≠ 0) :
    (applyBathymetryBottom blk).b x y = blk.b x y := by
  unfold applyBathymetryBottom
  split
  · simp [hy]
  · rfl

/-- The top bathymetry copy writes only ghost row ny + 1. -/
theorem applyBathymetryTop_frame (blk : Block) (x y : Nat) (hy : y ≠ blk.ny + 1) :
    (applyBathymetryTop blk).b x y = blk.b x y := by
  unfold applyBathymetryTop
  split
  · simp [hy]
  · rfl

/-- The bathymetry corner writes touch only the four corner ghost cells. -/
theorem applyBathymetryCorners_frame (blk : Block) (x y : Nat)
    (h1 : ¬(x = 0 ∧ y = 0)) (h2 : ¬(x = 0 ∧ y = blk.ny + 1))
    (h3 : ¬(x = blk.nx + 1 ∧ y = 0)) (h4 : ¬(x = blk.nx + 1 ∧ y = blk.ny + 1)) :
    (applyBathymetryCorners blk).b x y = blk.b x y := by
  unfold applyBathymetryCorners
  simp only [if_neg h1, if_neg h2, if_neg h3, if_neg h4]

/-- Each bathymetry stage leaves the grid metadata unchanged. -/
theorem applyBathymetryLeft_meta (blk : Block) :
    (applyBathymetryLeft blk).nx = blk.nx ∧ (applyBathymetryLeft blk).ny = blk.ny ∧
      (applyBathymetryLeft blk).boundaryType = blk.boundaryType := by
  unfold applyBathymetryLeft
  split
  · exact ⟨rfl, rfl, rfl⟩
  · exact ⟨rfl, rfl, rfl⟩

/-- Metadata preservation for the right bathymetry stage. -/
theorem applyBathymetryRight_meta (blk : Block) :
    (applyBathymetryRight blk).nx = blk.nx ∧ (applyBathymetryRight blk).ny = blk.ny ∧
      (applyBathymetryRight blk).boundaryType = blk.boundaryType := by
  unfold applyBathymetryRight
  split
  · exact ⟨rfl, rfl, rfl⟩
  · exact ⟨rfl, rfl, rfl⟩

/-- Metadata preservation for the bottom bathymetry stage. -/
theorem applyBathymetryBottom_meta (blk : Block) :
    (applyBathymetryBottom blk).nx = blk.nx ∧ (applyBathymetryBottom blk).ny = blk.ny ∧
      (applyBathymetryBottom blk).boundaryType = blk.boundaryType := by
  unfold applyBathymetryBottom
  split
  · exact ⟨rfl, rfl, rfl⟩
  · exact ⟨rfl, rfl, rfl⟩

/-- Metadata preservation for the top bathymetry stage. -/
theorem applyBathymetryTop_meta (blk : Block) :
    (applyBathymetryTop blk).nx = blk.nx ∧ (applyBathymetryTop blk).ny = blk.ny ∧
      (applyBathymetryTop blk).boundaryType = blk.boundaryType := by
  unfold applyBathymetryTop
  split
  · exact ⟨rfl, rfl, rfl⟩
  · exact ⟨rfl, rfl, rfl⟩

/-- Interior bathymetry is untouched by applyBoundaryBathymetry. -/
theorem applyBoundaryBathymetry_interior (blk : Block) (x y : Nat)
    (hx1 : 1 ≤ x) (hx2 : x ≤ blk.nx) (hy1 : 1 ≤ y) (hy2 : y ≤ blk.ny) :
    (applyBoundaryBathymetry blk).b x y = blk.b x y := by
  unfold applyBoundaryBathymetry
  set b1 := applyBathymetryLeft blk with hb1
  set b2 := applyBathymetryRight b1 with hb2
  set b3 := applyBathymetryBottom b2 with hb3
  set b4 := applyBathymetryTop b3 with hb4
  have m1 := applyBathymetryLeft_meta blk
  have m2 := applyBathymetryRight_meta b1
  have m3 := applyBathymetryBottom_meta b2
  have m4 := applyBathymetryTop_meta b3
  have hnx4 : b4.nx = blk.nx := by rw [m4.1, m3.1, m2.1, m1.1]
  have hny4 : b4.ny = blk.ny := by rw [m4.2.1, m3.2.1, m2.2.1, m1.2.1]
  rw [applyBathymetryCorners_frame b4 x y (by omega) (by rw [hny4]; omega)
      (by rw [hnx4]; omega) (by rw [hnx4, hny4]; omega)]
  rw [applyBathymetryTop_frame b3 x y (by rw [m3.2.1, m2.2.1, m1.2.1]; omega)]
  rw [applyBathymetryBottom_frame b2 x y (by omega)]
  rw [applyBathymetryRight_frame b1 x y (by rw [m1.1]; omega)]
  exact applyBathymetryLeft_frame blk x y (by omega)

/-- Interior bathymetry (in fact every bathymetry cell) is untouched by
processCopyLayer when the cell is interior. -/
theorem processCopyLayer_interior_b (blk : Block) (msg : CopyLayerMsg) (x y : Nat)
    (hx1 : 1 ≤ x) (hx2 : x ≤ blk.nx) (hy1 : 1 ≤ y) (hy2 : y ≤ blk.ny) :
    (processCopyLayer blk msg).b x y = blk.b x y := by
  unfold processCopyLayer
  split
  · simp only []
    rw [if_neg (by omega)]
  · split
    · simp only []
      rw [if_neg (by omega)]
    · split
      · simp only []
        rw [if_neg (by omega)]
      · split
        · simp only []
          rw [if_neg (by omega)]
        · rfl

/-- C9: neither computeNumericalFluxes nor a successful updateUnknowns
modifies any element of the bathymetry field b, and the two remaining writers
of b, applyBoundaryBathymetry and processCopyLayer, leave every interior cell
b[x][y] with 1 <= x <= nx, 1 <= y <= ny unchanged. -/
theorem bathymetry_immutable (solver : Solver) (blk : Block) (dt : ℚ) (blkU : Block)
    (msg : CopyLayerMsg) (x y : Nat)
    (hupd : updateUnknowns blk dt = some blkU)
    (hx1 : 1 ≤ x) (hx2 : x ≤ blk.nx) (hy1 : 1 ≤ y) (hy2 : y ≤ blk.ny) :
    (computeNumericalFluxes solver blk).b = blk.b ∧
      blkU.b = blk.b ∧
      (applyBoundaryBathymetry blk).b x y = blk.b x y ∧
      (processCopyLayer blk msg).b x y = blk.b x y := by
  have hU : blkU = applyNetUpdates blk dt := by
    unfold updateUnknowns at hupd
    split at hupd
    · exact (Option.some.inj hupd).symm
    · cases hupd
  subst hU
  exact ⟨rfl, rfl, applyBoundaryBathymetry_interior blk x y hx1 hx2 hy1 hy2,
    processCopyLayer_interior_b blk msg x y hx1 hx2 hy1 hy2⟩

/-- Witness for bathymetry_immutable on sampleBlock at interior cell (2, 1)
with dt = 3 and the sample message. -/
theorem bathymetry_immutable_witness :
    (computeNumericalFluxes sampleSolver sampleBlock).b = sampleBlock.b ∧
      (applyNetUpdates sampleBlock 3).b = sampleBlock.b ∧
      (applyBoundaryBathymetry sampleBlock).b 2 1 = sampleBlock.b 2 1 ∧
      (processCopyLayer sampleBlock sampleMsg).b 2 1 = sampleBlock.b 2 1 :=
  bathymetry_immutable sampleSolver sampleBlock 3 (applyNetUpdates sampleBlock 3) sampleMsg 2 1
    (by unfold updateUnknowns; rw [if_pos (by norm_num [sampleBlock])])
    (by decide) (by decide) (by decide) (by decide)

/-- The left-boundary stage writes only ghost column 0. -/
theorem applyBoundaryLeft_frame (blk : Block) (x y : Nat) (hx : x ≠ 0) :
    (applyBoundaryLeft blk).h x y = blk.h x y ∧ (applyBoundaryLeft blk).hu x y = blk.hu x y ∧
      (applyBoundaryLeft blk).hv x y = blk.hv x y := by
  unfold applyBoundaryLeft
  cases blk.boundaryType BND_LEFT <;> exact ⟨by simp [hx], by simp [hx], by simp [hx]⟩

/-- The right-boundary stage writes only ghost column nx + 1. -/
theorem applyBoundaryRight_frame (blk : Block) (x y : Nat) (hx : x ≠ blk.nx + 1) :
    (applyBoundaryRight blk).h x y = blk.h x y ∧ (applyBoundaryRight blk).hu x y = blk.hu x y ∧
      (applyBoundaryRight blk).hv x y = blk.hv x y := by
  unfold applyBoundaryRight
  cases blk.boundaryType BND_RIGHT <;> exact ⟨by simp [hx], by simp [hx], by simp [hx]⟩

/-- The bottom-boundary stage writes only ghost row 0. -/
theorem applyBoundaryBottom_frame (blk : Block) (x y : Nat) (hy : y ≠ 0) :
    (applyBoundaryBottom blk).h x y = blk.h x y ∧ (applyBoundaryBottom blk).hu x y = blk.hu x y ∧
      (applyBoundaryBottom blk).hv x y = blk.hv x y := by
  unfold applyBoundaryBottom
  cases blk.boundaryType BND_BOTTOM <;> exact ⟨by simp [hy], by simp [hy], by simp [hy]⟩

/-- The top-boundary stage writes only ghost row ny + 1. -/
theorem applyBoundaryTop_frame (blk : Block) (x y : Nat) (hy : y ≠ blk.ny + 1) :
    (applyBoundaryTop blk).h x y = blk.h x y ∧ (applyBoundaryTop blk).hu x y = blk.hu x y ∧
      (applyBoundaryTop blk).hv x y = blk.hv x y := by
  unfold applyBoundaryTop
  cases blk.boundaryType BND_TOP <;> exact ⟨by simp [hy], by simp [hy], by simp [hy]⟩

/-- The corner stage writes only the four corner ghost cells. -/
theorem applyBoundaryCorners_frame (blk : Block) (x y : Nat)
    (h1 : ¬(x = 0 ∧ y = 0)) (h2 : ¬(x = 0 ∧ y = blk.ny + 1))
    (h3 : ¬(x = blk.nx + 1 ∧ y = 0)) (h4 : ¬(x = blk.nx + 1 ∧ y = blk.ny + 1)) :
    (applyBoundaryCorners blk).h x y = blk.h x y ∧
      (applyBoundaryCorners blk).hu x y = blk.hu x y ∧
      (applyBoundaryCorners blk).hv x y = blk.hv x y := by
  unfold applyBoundaryCorners
  exact ⟨by simp only [if_neg h1, if_neg h2, if_neg h3, if_neg h4],
    by simp only [if_neg h1, if_neg h2, if_neg h3, if_neg h4],
    by simp only [if_neg h1, if_neg h2, if_neg h3, if_neg h4]⟩

/-- The left-boundary stage preserves metadata and bathymetry. -/
theorem applyBoundaryLeft_meta (blk : Block) :
    (applyBoundaryLeft blk).nx = blk.nx ∧ (applyBoundaryLeft blk).ny = blk.ny ∧
      (applyBoundaryLeft blk).boundaryType = blk.boundaryType := by
  unfold applyBoundaryLeft
  cases blk.boundaryType BND_LEFT <;> exact ⟨rfl, rfl, rfl⟩

/-- The right-boundary stage preserves metadata. -/
theorem applyBoundaryRight_meta (blk : Block) :
    (applyBoundaryRight blk).nx = blk.nx ∧ (applyBoundaryRight blk).ny = blk.ny ∧
      (applyBoundaryRight blk).boundaryType = blk.boundaryType := by
  unfold applyBoundaryRight
  cases blk.boundaryType BND_RIGHT <;> exact ⟨rfl, rfl, rfl⟩

/-- The bottom-boundary stage preserves metadata. -/
theorem applyBoundaryBottom_meta (blk : Block) :
    (applyBoundaryBottom blk).nx = blk.nx ∧ (applyBoundaryBottom blk).ny = blk.ny ∧
      (applyBoundaryBottom blk).boundaryType = blk.boundaryType := by
  unfold applyBoundaryBottom
  cases blk.boundaryType BND_BOTTOM <;> exact ⟨rfl, rfl, rfl⟩

/-- The top-boundary stage preserves metadata. -/
theorem applyBoundaryTop_meta (blk : Block) :
    (applyBoundaryTop blk).nx = blk.nx ∧ (applyBoundaryTop blk).ny = blk.ny ∧
      (applyBoundaryTop blk).boundaryType = blk.boundaryType := by
  unfold applyBoundaryTop
  cases blk.boundaryType BND_TOP <;> exact ⟨rfl, rfl, rfl⟩

/-- Action of the left-boundary stage on its ghost strip under WALL. -/
theorem applyBoundaryLeft_wall (blk : Block) (y : Nat)
    (hW : blk.boundaryType BND_LEFT = WALL) (hy1 : 1 ≤ y) (hy2 : y ≤ blk.ny) :
    (applyBoundaryLeft blk).h 0 y = blk.h 1 y ∧
      (applyBoundaryLeft blk).hu 0 y = -blk.hu 1 y ∧
      (applyBoundaryLeft blk).hv 0 y = blk.hv 1 y := by
  unfold applyBoundaryLeft
  rw [hW]
  exact ⟨by simp [hy1, hy2], by simp [hy1, hy2], by simp [hy1, hy2]⟩

/-- Action of the left-boundary stage on its ghost strip under OUTFLOW. -/
theorem applyBoundaryLeft_outflow (blk : Block) (y : Nat)
    (hO : blk.boundaryType BND_LEFT = OUTFLOW) (hy1 : 1 ≤ y) (hy2 : y ≤ blk.ny) :
    (applyBoundaryLeft blk).h 0 y = blk.h 1 y ∧
      (applyBoundaryLeft blk).hu 0 y = blk.hu 1 y ∧
      (applyBoundaryLeft blk).hv 0 y = blk.hv 1 y := by
  unfold applyBoundaryLeft
  rw [hO]
  exact ⟨by simp [hy1, hy2], by simp [hy1, hy2], by simp [hy1, hy2]⟩

/-- The left-boundary stage is the identity under CONNECT or PASSIVE. -/
theorem applyBoundaryLeft_skip (blk : Block)
    (hS : blk.boundaryType BND_LEFT = CONNECT ∨ blk.boundaryType BND_LEFT = PASSIVE) :
    applyBoundaryLeft blk = blk := by
  unfold applyBoundaryLeft
  rcases hS with hS | hS <;> rw [hS]

/-- Action of the right-boundary stage on its ghost strip under WALL. -/
theorem applyBoundaryRight_wall (blk : Block) (y : Nat)
    (hW : blk.boundaryType BND_RIGHT = WALL) (hy1 : 1 ≤ y) (hy2 : y ≤ blk.ny) :
    (applyBoundaryRight blk).h (blk.nx + 1) y = blk.h blk.nx y ∧
      (applyBoundaryRight blk).hu (blk.nx + 1) y = -blk.hu blk.nx y ∧
      (applyBoundaryRight blk).hv (blk.nx + 1) y = blk.hv blk.nx y := by
  unfold applyBoundaryRight
  rw [hW]
  exact ⟨by simp [hy1, hy2], by simp [hy1, hy2], by simp [hy1, hy2]⟩

/-- Action of the right-boundary stage on its ghost strip under OUTFLOW. -/
theorem applyBoundaryRight_outflow (blk : Block) (y : Nat)
    (hO : blk.boundaryType BND_RIGHT = OUTFLOW) (hy1 : 1 ≤ y) (hy2 : y ≤ blk.ny) :
    (applyBoundaryRight blk).h (blk.nx + 1) y = blk.h blk.nx y ∧
      (applyBoundaryRight blk).hu (blk.nx + 1) y = blk.hu blk.nx y ∧
      (applyBoundaryRight blk).hv (blk.nx + 1) y = blk.hv blk.nx y := by
  unfold applyBoundaryRight
  rw [hO]
  exact ⟨by simp [hy1, hy2], by simp [hy1, hy2], by simp [hy1, hy2]⟩

/-- The right-boundary stage is the identity under CONNECT or PASSIVE. -/
theorem applyBoundaryRight_skip (blk : Block)
    (hS : blk.boundaryType BND_RIGHT = CONNECT ∨ blk.boundaryType BND_RIGHT = PASSIVE) :
    applyBoundaryRight blk = blk := by
  unfold applyBoundaryRight
  rcases hS with hS | hS <;> rw [hS]

/-- Action of the bottom-boundary stage on its ghost strip under WALL. -/
theorem applyBoundaryBottom_wall (blk : Block) (x : Nat)
    (hW : blk.boundaryType BND_BOTTOM = WALL) (hx1 : 1 ≤ x) (hx2 : x ≤ blk.nx) :
    (applyBoundaryBottom blk).h x 0 = blk.h x 1 ∧
      (applyBoundaryBottom blk).hu x 0 = blk.hu x 1 ∧
      (applyBoundaryBottom blk).hv x 0 = -blk.hv x 1 := by
  unfold applyBoundaryBottom
  rw [hW]
  exact ⟨by simp [hx1, hx2], by simp [hx1, hx2], by simp [hx1, hx2]⟩

/-- Action of the bottom-boundary stage on its ghost strip under OUTFLOW. -/
theorem applyBoundaryBottom_outflow (blk : Block) (x : Nat)
    (hO : blk.boundaryType BND_BOTTOM = OUTFLOW) (hx1 : 1 ≤ x) (hx2 : x ≤ blk.nx) :
    (applyBoundaryBottom blk).h x 0 = blk.h x 1 ∧
      (applyBoundaryBottom blk).hu x 0 = blk.hu x 1 ∧
      (applyBoundaryBottom blk).hv x 0 = blk.hv x 1 := by
  unfold applyBoundaryBottom
  rw [hO]
  exact ⟨by simp [hx1, hx2], by simp [hx1, hx2], by simp [hx1, hx2]⟩

/-- The bottom-boundary stage is the identity under CONNECT or PASSIVE. -/
theorem applyBoundaryBottom_skip (blk : Block)
    (hS : blk.boundaryType BND_BOTTOM = CONNECT ∨ blk.boundaryType BND_BOTTOM = PASSIVE) :
    applyBoundaryBottom blk = blk := by
  unfold applyBoundaryBottom
  rcases hS with hS | hS <;> rw [hS]

/-- Action of the top-boundary stage on its ghost strip under WALL. -/
theorem applyBoundaryTop_wall (blk : Block) (x : Nat)
    (hW : blk.boundaryType BND_TOP = WALL) (hx1 : 1 ≤ x) (hx2 : x ≤ blk.nx) :
    (applyBoundaryTop blk).h x (blk.ny + 1) = blk.h x blk.ny ∧
      (applyBoundaryTop blk).hu x (blk.ny + 1) = blk.hu x blk.ny ∧
      (applyBoundaryTop blk).hv x (blk.ny + 1) = -blk.hv x blk.ny := by
  unfold applyBoundaryTop
  rw [hW]
  exact ⟨by simp [hx1, hx2], by simp [hx1, hx2], by simp [hx1, hx2]⟩

/-- Action of the top-boundary stage on its ghost strip under OUTFLOW. -/
theorem applyBoundaryTop_outflow (blk : Block) (x : Nat)
    (hO : blk.boundaryType BND_TOP = OUTFLOW) (hx1 : 1 ≤ x) (hx2 : x ≤ blk.nx) :
    (applyBoundaryTop blk).h x (blk.ny + 1) = blk.h x blk.ny ∧
      (applyBoundaryTop blk).hu x (blk.ny + 1) = blk.hu x blk.ny ∧
      (applyBoundaryTop blk).hv x (blk.ny + 1) = blk.hv x blk.ny := by
  unfold applyBoundaryTop
  rw [hO]
  exact ⟨by simp [hx1, hx2], by simp [hx1, hx2], by simp [hx1, hx2]⟩

/-- The top-boundary stage is the identity under CONNECT or PASSIVE. -/
theorem applyBoundaryTop_skip (blk : Block)
    (hS : blk.boundaryType BND_TOP = CONNECT ∨ blk.boundaryType BND_TOP = PASSIVE) :
    applyBoundaryTop blk = blk := by
  unfold applyBoundaryTop
  rcases hS with hS | hS <;> rw [hS]

/-- C4: after applyBoundaryConditions, on every WALL edge the ghost strip
mirrors the adjacent interior h and tangential momentum and negates the normal
momentum (hu on LEFT and RIGHT, hv on BOTTOM and TOP); on every OUTFLOW edge
all of h, hu, hv are copied unchanged; on CONNECT and PASSIVE edges the ghost
strip at indices 1..nx respectively 1..ny is left untouched. -/
theorem applyBoundaryConditions_spec (blk : Block) (x y : Nat)
    (hnx : 1 ≤ blk.nx) (hny : 1 ≤ blk.ny)
    (hx1 : 1 ≤ x) (hx2 : x ≤ blk.nx) (hy1 : 1 ≤ y) (hy2 : y ≤ blk.ny) :
    (blk.boundaryType BND_LEFT = WALL →
      (applyBoundaryConditions blk).h 0 y = blk.h 1 y ∧
        (applyBoundaryConditions blk).hu 0 y = -blk.hu 1 y ∧
        (applyBoundaryConditions blk).hv 0 y = blk.hv 1 y) ∧
      (blk.boundaryType BND_LEFT = OUTFLOW →
        (applyBoundaryConditions blk).h 0 y = blk.h 1 y ∧
          (applyBoundaryConditions blk).hu 0 y = blk.hu 1 y ∧
          (applyBoundaryConditions blk).hv 0 y = blk.hv 1 y) ∧
      (blk.boundaryType BND_LEFT = CONNECT ∨ blk.boundaryType BND_LEFT = PASSIVE →
        (applyBoundaryConditions blk).h 0 y = blk.h 0 y ∧
          (applyBoundaryConditions blk).hu 0 y = blk.hu 0 y ∧
          (applyBoundaryConditions blk).hv 0 y = blk.hv 0 y) ∧
      (blk.boundaryType BND_RIGHT = WALL →
        (applyBoundaryConditions blk).h (blk.nx + 1) y = blk.h blk.nx y ∧
          (applyBoundaryConditions blk).hu (blk.nx + 1) y = -blk.hu blk.nx y ∧
          (applyBoundaryConditions blk).hv (blk.nx + 1) y = blk.hv blk.nx y) ∧
      (blk.boundaryType BND_RIGHT = OUTFLOW →
        (applyBoundaryConditions blk).h (blk.nx + 1) y = blk.h blk.nx y ∧
          (applyBoundaryConditions blk).hu (blk.nx + 1) y = blk.hu blk.nx y ∧
          (applyBoundaryConditions blk).hv (blk.nx + 1) y = blk.hv blk.nx y) ∧
      (blk.boundaryType BND_RIGHT = CONNECT ∨ blk.boundaryType BND_RIGHT = PASSIVE →
        (applyBoundaryConditions blk).h (blk.nx + 1) y = blk.h (blk.nx + 1) y ∧
          (applyBoundaryConditions blk).hu (blk.nx + 1) y = blk.hu (blk.nx + 1) y ∧
          (applyBoundaryConditions blk).hv (blk.nx + 1) y = blk.hv (blk.nx + 1) y) ∧
      (blk.boundaryType BND_BOTTOM = WALL →
        (applyBoundaryConditions blk).h x 0 = blk.h x 1 ∧
          (applyBoundaryConditions blk).hu x 0 = blk.hu x 1 ∧
          (applyBoundaryConditions blk).hv x 0 = -blk.hv x 1) ∧
      (blk.boundaryType BND_BOTTOM = OUTFLOW →
        (applyBoundaryConditions blk).h x 0 = blk.h x 1 ∧
          (applyBoundaryConditions blk).hu x 0 = blk.hu x 1 ∧
          (applyBoundaryConditions blk).hv x 0 = blk.hv x 1) ∧
      (blk.boundaryType BND_BOTTOM = CONNECT ∨ blk.boundaryType BND_BOTTOM = PASSIVE →
        (applyBoundaryConditions blk).h x 0 = blk.h x 0 ∧
          (applyBoundaryConditions blk).hu x 0 = blk.hu x 0 ∧
          (applyBoundaryConditions blk).hv x 0 = blk.hv x 0) ∧
      (blk.boundaryType BND_TOP = WALL →
        (applyBoundaryConditions blk).h x (blk.ny + 1) = blk.h x blk.ny ∧
          (applyBoundaryConditions blk).hu x (blk.ny + 1) = blk.hu x blk.ny ∧
          (applyBoundaryConditions blk).hv x (blk.ny + 1) = -blk.hv x blk.ny) ∧
      (blk.boundaryType BND_TOP = OUTFLOW →
        (applyBoundaryConditions blk).h x (blk.ny + 1) = blk.h x blk.ny ∧
          (applyBoundaryConditions blk).hu x (blk.ny + 1) = blk.hu x blk.ny ∧
          (applyBoundaryConditions blk).hv x (blk.ny + 1) = blk.hv x blk.ny) ∧
      (blk.boundaryType BND_TOP = CONNECT ∨ blk.boundaryType BND_TOP = PASSIVE →
        (applyBoundaryConditions blk).h x (blk.ny + 1) = blk.h x (blk.ny + 1) ∧
          (applyBoundaryConditions blk).hu x (blk.ny + 1) = blk.hu x (blk.ny + 1) ∧
          (applyBoundaryConditions blk).hv x (blk.ny + 1) = blk.hv x (blk.ny + 1)) := by
  unfold applyBoundaryConditions
  set B1 := applyBoundaryLeft blk with hB1
  set B2 := applyBoundaryRight B1 with hB2
  set B3 := applyBoundaryBottom B2 with hB3
  set B4 := applyBoundaryTop B3 with hB4
  have n1 : B1.nx = blk.nx := by rw [hB1, (applyBoundaryLeft_meta blk).1]
  have e1 : B1.ny = blk.ny := by rw [hB1, (applyBoundaryLeft_meta blk).2.1]
  have t1 : B1.boundaryType = blk.boundaryType := by rw [hB1, (applyBoundaryLeft_meta blk).2.2]
  have n2 : B2.nx = blk.nx := by rw [hB2, (applyBoundaryRight_meta B1).1, n1]
  have e2 : B2.ny = blk.ny := by rw [hB2, (applyBoundaryRight_meta B1).2.1, e1]
  have t2 : B2.boundaryType = blk.boundaryType := by
    rw [hB2, (applyBoundaryRight_meta B1).2.2, t1]
  have n3 : B3.nx = blk.nx := by rw [hB3, (applyBoundaryBottom_meta B2).1, n2]
  have e3 : B3.ny = blk.ny := by rw [hB3, (applyBoundaryBottom_meta B2).2.1, e2]
  have t3 : B3.boundaryType = blk.boundaryType := by
    rw [hB3, (applyBoundaryBottom_meta B2).2.2, t2]
  have n4 : B4.nx = blk.nx := by rw [hB4, (applyBoundaryTop_meta B3).1, n3]
  have e4 : B4.ny = blk.ny := by rw [hB4, (applyBoundaryTop_meta B3).2.1, e3]
  have cA := applyBoundaryCorners_frame B4 0 y (by omega) (by rw [e4]; omega)
    (by rw [n4]; omega) (by rw [n4]; omega)
  have tA := applyBoundaryTop_frame B3 0 y (by rw [e3]; omega)
  have bA := applyBoundaryBottom_frame B2 0 y (by omega)
  have rA := applyBoundaryRight_frame B1 0 y (by rw [n1]; omega)
  have cB := applyBoundaryCorners_frame B4 (blk.nx + 1) y (by omega) (by omega)
    (by rw [n4]; omega) (by rw [n4, e4]; omega)
  have tB := applyBoundaryTop_frame B3 (blk.nx + 1) y (by rw [e3]; omega)
  have bB := applyBoundaryBottom_frame B2 (blk.nx + 1) y (by omega)
  have fB := applyBoundaryLeft_frame blk blk.nx y (by omega)
  have fB' := applyBoundaryLeft_frame blk (blk.nx + 1) y (by omega)
  have cC := applyBoundaryCorners_frame B4 x 0 (by omega) (by omega)
    (by rw [n4]; omega) (by omega)
  have tC := applyBoundaryTop_frame B3 x 0 (by omega)
  have rC := applyBoundaryRight_frame B1 x 1 (by rw [n1]; omega)
  have lC := applyBoundaryLeft_frame blk x 1 (by omega)
  have rC' := applyBoundaryRight_frame B1 x 0 (by rw [n1]; omega)
  have lC' := applyBoundaryLeft_frame blk x 0 (by omega)
  have cD := applyBoundaryCorners_frame B4 x (blk.ny + 1) (by omega) (by omega) (by omega)
    (by rw [n4]; omega)
  have bD := applyBoundaryBottom_frame B2 x blk.ny (by omega)
  have rD := applyBoundaryRight_frame B1 x blk.ny (by rw [n1]; omega)
  have lD := applyBoundaryLeft_frame blk x blk.ny (by omega)
  have bD' := applyBoundaryBottom_frame B2 x (blk.ny + 1) (by omega)
  have rD' := applyBoundaryRight_frame B1 x (blk.ny + 1) (by rw [n1]; omega)
  have lD' := applyBoundaryLeft_frame blk x (blk.ny + 1) (by omega)
  refine ⟨fun hW => ?_, fun hO => ?_, fun hS => ?_, fun hW => ?_, fun hO => ?_, fun hS => ?_,
    fun hW => ?_, fun hO => ?_, fun hS => ?_, fun hW => ?_, fun hO => ?_, fun hS => ?_⟩
  · have aL := applyBoundaryLeft_wall blk y hW hy1 hy2
    exact ⟨by rw [cA.1, hB4, tA.1, hB3, bA.1, hB2, rA.1, hB1, aL.1],
      by rw [cA.2.1, hB4, tA.2.1, hB3, bA.2.1, hB2, rA.2.1, hB1, aL.2.1],
      by rw [cA.2.2, hB4, tA.2.2, hB3, bA.2.2, hB2, rA.2.2, hB1, aL.2.2]⟩
  · have aL := applyBoundaryLeft_outflow blk y hO hy1 hy2
    exact ⟨by rw [cA.1, hB4, tA.1, hB3, bA.1, hB2, rA.1, hB1, aL.1],
      by rw [cA.2.1, hB4, tA.2.1, hB3, bA.2.1, hB2, rA.2.1, hB1, aL.2.1],
      by rw [cA.2.2, hB4, tA.2.2, hB3, bA.2.2, hB2, rA.2.2, hB1, aL.2.2]⟩
  · have aL := applyBoundaryLeft_skip blk hS
    exact ⟨by rw [cA.1, hB4, tA.1, hB3, bA.1, hB2, rA.1, hB1, aL],
      by rw [cA.2.1, hB4, tA.2.1, hB3, bA.2.1, hB2, rA.2.1, hB1, aL],
      by rw [cA.2.2, hB4, tA.2.2, hB3, bA.2.2, hB2, rA.2.2, hB1, aL]⟩
  · have aR := applyBoundaryRight_wall B1 y (by rw [t1]; exact hW) hy1 (by rw [e1]; exact hy2)
    rw [n1] at aR
    exact ⟨by rw [cB.1, hB4, tB.1, hB3, bB.1, hB2, aR.1, hB1, fB.1],
      by rw [cB.2.1, hB4, tB.2.1, hB3, bB.2.1, hB2, aR.2.1, hB1, fB.2.1],
      by rw [cB.2.2, hB4, tB.2.2, hB3, bB.2.2, hB2, aR.2.2, hB1, fB.2.2]⟩
  · have aR := applyBoundaryRight_outflow B1 y (by rw [t1]; exact hO) hy1 (by rw [e1]; exact hy2)
    rw [n1] at aR
    exact ⟨by rw [cB.1, hB4, tB.1, hB3, bB.1, hB2, aR.1, hB1, fB.1],
      by rw [cB.2.1, hB4, tB.2.1, hB3, bB.2.1, hB2, aR.2.1, hB1, fB.2.1],
      by rw [cB.2.2, hB4, tB.2.2, hB3, bB.2.2, hB2, aR.2.2, hB1, fB.2.2]⟩
  · have aR := applyBoundaryRight_skip B1 (by rw [t1]; exact hS)
    exact ⟨by rw [cB.1, hB4, tB.1, hB3, bB.1, hB2, aR, hB1, fB'.1],
      by rw [cB.2.1, hB4, tB.2.1, hB3, bB.2.1, hB2, aR, hB1, fB'.2.1],
      by rw [cB.2.2, hB4, tB.2.2, hB3, bB.2.2, hB2, aR, hB1, fB'.2.2]⟩
  · have aB := applyBoundaryBottom_wall B2 x (by rw [t2]; exact hW) hx1 (by rw [n2]; exact hx2)
    exact ⟨by rw [cC.1, hB4, tC.1, hB3, aB.1, hB2, rC.1, hB1, lC.1],
      by rw [cC.2.1, hB4, tC.2.1, hB3, aB.2.1, hB2, rC.2.1, hB1, lC.2.1],
      by rw [cC.2.2, hB4, tC.2.2, hB3, aB.2.2, hB2, rC.2.2, hB1, lC.2.2]⟩
  · have aB := applyBoundaryBottom_outflow B2 x (by rw [t2]; exact hO) hx1 (by rw [n2]; exact hx2)
    exact ⟨by rw [cC.1, hB4, tC.1, hB3, aB.1, hB2, rC.1, hB1, lC.1],
      by rw [cC.2.1, hB4, tC.2.1, hB3, aB.2.1, hB2, rC.2.1, hB1, lC.2.1],
      by rw [cC.2.2, hB4, tC.2.2, hB3, aB.2.2, hB2, rC.2.2, hB1, lC.2.2]⟩
  · have aB := applyBoundaryBottom_skip B2 (by rw [t2]; exact hS)
    exact ⟨by rw [cC.1, hB4, tC.1, hB3, aB, hB2, rC'.1, hB1, lC'.1],
      by rw [cC.2.1, hB4, tC.2.1, hB3, aB, hB2, rC'.2.1, hB1, lC'.2.1],
      by rw [cC.2.2, hB4, tC.2.2, hB3, aB, hB2, rC'.2.2, hB1, lC'.2.2]⟩
  · have aT := applyBoundaryTop_wall B3 x (by rw [t3]; exact hW) hx1 (by rw [n3]; exact hx2)
    rw [e3] at aT
    exact ⟨by rw [cD.1, hB4, aT.1, hB3, bD.1, hB2, rD.1, hB1, lD.1],
      by rw [cD.2.1, hB4, aT.2.1, hB3, bD.2.1, hB2, rD.2.1, hB1, lD.2.1],
      by rw [cD.2.2, hB4, aT.2.2, hB3, bD.2.2, hB2, rD.2.2, hB1, lD.2.2]⟩
  · have aT := applyBoundaryTop_outflow B3 x (by rw [t3]; exact hO) hx1 (by rw [n3]; exact hx2)
    rw [e3] at aT
    exact ⟨by rw [cD.1, hB4, aT.1, hB3, bD.1, hB2, rD.1, hB1, lD.1],
      by rw [cD.2.1, hB4, aT.2.1, hB3, bD.2.1, hB2, rD.2.1, hB1, lD.2.1],
      by rw [cD.2.2, hB4, aT.2.2, hB3, bD.2.2, hB2, rD.2.2, hB1, lD.2.2]⟩
  · have aT := applyBoundaryTop_skip B3 (by rw [t3]; exact hS)
    exact ⟨by rw [cD.1, hB4, aT, hB3, bD'.1, hB2, rD'.1, hB1, lD'.1],
      by rw [cD.2.1, hB4, aT, hB3, bD'.2.1, hB2, rD'.2.1, hB1, lD'.2.1],
      by rw [cD.2.2, hB4, aT, hB3, bD'.2.2, hB2, rD'.2.2, hB1, lD'.2.2]⟩

/-- Witness for applyBoundaryConditions_spec on mixedBlock (WALL left, OUTFLOW
right, CONNECT bottom, PASSIVE top) at x = 1, y = 2. -/
theorem applyBoundaryConditions_spec_witness :
    ((applyBoundaryConditions mixedBlock).h 0 2 = mixedBlock.h 1 2 ∧
        (applyBoundaryConditions mixedBlock).hu 0 2 = -mixedBlock.hu 1 2 ∧
        (applyBoundaryConditions mixedBlock).hv 0 2 = mixedBlock.hv 1 2) ∧
      ((applyBoundaryConditions mixedBlock).h (mixedBlock.nx + 1) 2 =
            mixedBlock.h mixedBlock.nx 2 ∧
        (applyBoundaryConditions mixedBlock).hu (mixedBlock.nx + 1) 2 =
            mixedBlock.hu mixedBlock.nx 2 ∧
        (applyBoundaryConditions mixedBlock).hv (mixedBlock.nx + 1) 2 =
            mixedBlock.hv mixedBlock.nx 2) ∧
      ((applyBoundaryConditions mixedBlock).h 1 0 = mixedBlock.h 1 0 ∧
        (applyBoundaryConditions mixedBlock).hu 1 0 = mixedBlock.hu 1 0 ∧
        (applyBoundaryConditions mixedBlock).hv 1 0 = mixedBlock.hv 1 0) ∧
      ((applyBoundaryConditions mixedBlock).h 1 (mixedBlock.ny + 1) =
            mixedBlock.h 1 (mixedBlock.ny + 1) ∧
        (applyBoundaryConditions mixedBlock).hu 1 (mixedBlock.ny + 1) =
            mixedBlock.hu 1 (mixedBlock.ny + 1) ∧
        (applyBoundaryConditions mixedBlock).hv 1 (mixedBlock.ny + 1) =
            mixedBlock.hv 1 (mixedBlock.ny + 1)) := by
  have H := applyBoundaryConditions_spec mixedBlock 1 2 (by decide) (by decide) (by decide)
    (by decide) (by decide) (by decide)
  exact ⟨H.1 rfl, H.2.2.2.2.1 rfl, H.2.2.2.2.2.2.2.2.1 (Or.inl rfl),
    H.2.2.2.2.2.2.2.2.2.2.2 (Or.inr rfl)⟩

/-- The initial accumulator is below any left fold of max. -/
theorem init_le_foldl_max (l : List ℚ) (a : ℚ) : a ≤ l.foldl max a := by
  induction l generalizing a with
  | nil => exact le_refl a
  | cons b t ih =>
    rw [List.foldl_cons]
    exact le_trans (le_max_left a b) (ih (max a b))

/-- Every member of a list is below any left fold of max over it. -/
theorem mem_le_foldl_max (l : List ℚ) : ∀ (a z : ℚ), z ∈ l → z ≤ l.foldl max a := by
  induction l with
  | nil =>
    intro a z hz
    cases hz
  | cons b t ih =>
    intro a z hz
    rw [List.foldl_cons]
    rcases List.mem_cons.mp hz with h | h
    · subst h
      exact le_trans (le_max_right a z) (init_le_foldl_max t (max a z))
    · exact ih (max a b) z h

/-- Membership in the x-sweep pair list is exactly the loop range
x in [0, nx], y in [1, ny]. -/
theorem mem_xSweepPairs (nx ny x y : Nat) :
    (x, y) ∈ xSweepPairs nx ny ↔ x ≤ nx ∧ 1 ≤ y ∧ y ≤ ny := by
  simp only [xSweepPairs, List.mem_flatMap, List.mem_map, List.mem_range, Prod.mk.injEq]
  constructor
  · rintro ⟨a, ha, j, hj, rfl, rfl⟩
    omega
  · rintro ⟨h1, h2, h3⟩
    exact ⟨x, by omega, y - 1, by omega, rfl, by omega⟩

/-- Membership in the y-sweep pair list is exactly the loop range
x in [1, nx], y in [0, ny]. -/
theorem mem_ySweepPairs (nx ny x y : Nat) :
    (x, y) ∈ ySweepPairs nx ny ↔ 1 ≤ x ∧ x ≤ nx ∧ y ≤ ny := by
  simp only [ySweepPairs, List.mem_flatMap, List.mem_map, List.mem_range, Prod.mk.injEq]
  constructor
  · rintro ⟨a, ha, j, hj, rfl, rfl⟩
    omega
  · rintro ⟨h1, h2, h3⟩
    exact ⟨x - 1, by omega, y, by omega, by omega, rfl⟩

/-- The x-sweep visits no pair twice. -/
theorem nodup_xSweepPairs (nx ny : Nat) : (xSweepPairs nx ny).Nodup := by
  unfold xSweepPairs
  refine List.nodup_flatMap.mpr ⟨?_, ?_⟩
  · intro a _
    have hinj : Function.Injective (fun j : Nat => (a, j + 1)) := by
      intro i j hij
      simpa using congrArg Prod.snd hij
    exact (List.nodup_range ny).map hinj
  · refine (List.pairwise_lt_range (nx + 1)).imp ?_
    intro a b hab p hpa hpb
    simp only [List.mem_map, List.mem_range] at hpa hpb
    obtain ⟨i, _, rfl⟩ := hpa
    obtain ⟨j, _, hj⟩ := hpb
    have : b = a := by simpa using congrArg Prod.fst hj
    omega

/-- The y-sweep visits no pair twice. -/
theorem nodup_ySweepPairs (nx ny : Nat) : (ySweepPairs nx ny).Nodup := by
  unfold ySweepPairs
  refine List.nodup_flatMap.mpr ⟨?_, ?_⟩
  · intro a _
    have hinj : Function.Injective (fun y : Nat => (a + 1, y)) := by
      intro i j hij
      simpa using congrArg Prod.snd hij
    exact (List.nodup_range (ny + 1)).map hinj
  · refine (List.pairwise_lt_range nx).imp ?_
    intro a b hab p hpa hpb
    simp only [List.mem_map, List.mem_range] at hpa hpb
    obtain ⟨i, _, rfl⟩ := hpa
    obtain ⟨j, _, hj⟩ := hpb
    have : b + 1 = a + 1 := by simpa using congrArg Prod.fst hj
    omega

/-- The boolean-equality count on pairs coincides with the count taken through
decidable equality; bridges the two BEq instances on Nat pairs. -/
theorem count_beq_bridge (a : Nat × Nat) (l : List (Nat × Nat)) :
    l.count a = @List.count _ instBEqOfDecidableEq a l := by
  induction l with
  | nil => rfl
  | cons b t ih =>
    rw [List.count_cons, @List.count_cons _ instBEqOfDecidableEq, ih]
    congr 1
    by_cases h : b = a
    · subst h
      simp [instBEqOfDecidableEq]
    · simp [instBEqOfDecidableEq, h]

/-- Exact call count of the x-sweep: one per pair in range, zero otherwise. -/
theorem count_xSweepPairs (nx ny p q : Nat) :
    (xSweepPairs nx ny).count (p, q) = if p ≤ nx ∧ 1 ≤ q ∧ q ≤ ny then 1 else 0 := by
  by_cases hc : p ≤ nx ∧ 1 ≤ q ∧ q ≤ ny
  · rw [if_pos hc, count_beq_bridge]
    exact List.count_eq_one_of_mem (nodup_xSweepPairs nx ny)
      ((mem_xSweepPairs nx ny p q).mpr hc)
  · rw [if_neg hc]
    exact List.count_eq_zero_of_not_mem fun hmem => hc ((mem_xSweepPairs nx ny p q).mp hmem)

/-- Exact call count of the y-sweep: one per pair in range, zero otherwise. -/
theorem count_ySweepPairs (nx ny p q : Nat) :
    (ySweepPairs nx ny).count (p, q) = if 1 ≤ p ∧ p ≤ nx ∧ q ≤ ny then 1 else 0 := by
  by_cases hc : 1 ≤ p ∧ p ≤ nx ∧ q ≤ ny
  · rw [if_pos hc, count_beq_bridge]
    exact List.count_eq_one_of_mem (nodup_ySweepPairs nx ny)
      ((mem_ySweepPairs nx ny p q).mpr hc)
  · rw [if_neg hc]
    exact List.count_eq_zero_of_not_mem fun hmem => hc ((mem_ySweepPairs nx ny p q).mp hmem)

/-- C3: computeNumericalFluxes invokes the Riemann solver exactly once per
horizontal pair (x, y)-(x+1, y) with x in [0, nx], y in [1, ny], writing the
left-going result into hNetUpdatesLeft[x][y], huNetUpdatesLeft[x][y] and the
right-going result into hNetUpdatesRight[x+1][y], huNetUpdatesRight[x+1][y]
while max-reducing the wave speed into maxHorizontalWaveSpeed; and exactly
once per vertical pair (x, y)-(x, y+1) with x in [1, nx], y in [0, ny],
writing into hNetUpdatesBelow[x][y], hvNetUpdatesBelow[x][y] and
hNetUpdatesAbove[x][y+1], hvNetUpdatesAbove[x][y+1] while max-reducing into
maxVerticalWaveSpeed. -/
theorem computeNumericalFluxes_sweep_calls (solver : Solver) (blk : Block) (x y u v : Nat)
    (hx : x ≤ blk.nx) (hy1 : 1 ≤ y) (hy2 : y ≤ blk.ny)
    (hu1 : 1 ≤ u) (hu2 : u ≤ blk.nx) (hv2 : v ≤ blk.ny) :
    (∀ p q : Nat, (xSweepPairs blk.nx blk.ny).count (p, q) =
        if p ≤ blk.nx ∧ 1 ≤ q ∧ q ≤ blk.ny then 1 else 0) ∧
      (computeNumericalFluxes solver blk).hNetUpdatesLeft x y =
        (xSweepCall solver blk x y).netUpdateLeftH ∧
      (computeNumericalFluxes solver blk).huNetUpdatesLeft x y =
        (xSweepCall solver blk x y).netUpdateLeftHu ∧
      (computeNumericalFluxes solver blk).hNetUpdatesRight (x + 1) y =
        (xSweepCall solver blk x y).netUpdateRightH ∧
      (computeNumericalFluxes solver blk).huNetUpdatesRight (x + 1) y =
        (xSweepCall solver blk x y).netUpdateRightHu ∧
      (xSweepCall solver blk x y).waveSpeed ≤ maxHorizontalWaveSpeed solver blk ∧
      (∀ p q : Nat, (ySweepPairs blk.nx blk.ny).count (p, q) =
        if 1 ≤ p ∧ p ≤ blk.nx ∧ q ≤ blk.ny then 1 else 0) ∧
      (computeNumericalFluxes solver blk).hNetUpdatesBelow u v =
        (ySweepCall solver blk u v).netUpdateLeftH ∧
      (computeNumericalFluxes solver blk).hvNetUpdatesBelow u v =
        (ySweepCall solver blk u v).netUpdateLeftHu ∧
      (computeNumericalFluxes solver blk).hNetUpdatesAbove u (v + 1) =
        (ySweepCall solver blk u v).netUpdateRightH ∧
      (computeNumericalFluxes solver blk).hvNetUpdatesAbove u (v + 1) =
        (ySweepCall solver blk u v).netUpdateRightHu ∧
      (ySweepCall solver blk u v).waveSpeed ≤ maxVerticalWaveSpeed solver blk := by
  refine ⟨fun p q => count_xSweepPairs blk.nx blk.ny p q, ?_, ?_, ?_, ?_, ?_,
    fun p q => count_ySweepPairs blk.nx blk.ny p q, ?_, ?_, ?_, ?_, ?_⟩
  · simp only [computeNumericalFluxes]
    rw [if_pos ⟨hx, hy1, hy2⟩]
  · simp only [computeNumericalFluxes]
    rw [if_pos ⟨hx, hy1, hy2⟩]
  · simp only [computeNumericalFluxes]
    rw [if_pos ⟨by omega, by omega, hy1, hy2⟩]
    simp
  · simp only [computeNumericalFluxes]
    rw [if_pos ⟨by omega, by omega, hy1, hy2⟩]
    simp
  · have hmem : (x, y) ∈ xSweepPairs blk.nx blk.ny :=
      (mem_xSweepPairs blk.nx blk.ny x y).mpr ⟨hx, hy1, hy2⟩
    have hmap : (xSweepCall solver blk x y).waveSpeed ∈
        (xSweepPairs blk.nx blk.ny).map (fun p => (xSweepCall solver blk p.1 p.2).waveSpeed) :=
      List.mem_map_of_mem _ hmem
    exact mem_le_foldl_max _ 0 _ hmap
  · simp only [computeNumericalFluxes]
    rw [if_pos ⟨hu1, hu2, hv2⟩]
  · simp only [computeNumericalFluxes]
    rw [if_pos ⟨hu1, hu2, hv2⟩]
  · simp only [computeNumericalFluxes]
    rw [if_pos ⟨hu1, hu2, by omega, by omega⟩]
    simp
  · simp only [computeNumericalFluxes]
    rw [if_pos ⟨hu1, hu2, by omega, by omega⟩]
    simp
  · have hmem : (u, v) ∈ ySweepPairs blk.nx blk.ny :=
      (mem_ySweepPairs blk.nx blk.ny u v).mpr ⟨hu1, hu2, hv2⟩
    have hmap : (ySweepCall solver blk u v).waveSpeed ∈
        (ySweepPairs blk.nx blk.ny).map (fun p => (ySweepCall solver blk p.1 p.2).waveSpeed) :=
      List.mem_map_of_mem _ hmem
    exact mem_le_foldl_max _ 0 _ hmap

/-- Witness for computeNumericalFluxes_sweep_calls on sampleBlock with
sampleSolver at horizontal pair (0, 1) and vertical pair (1, 0). -/
theorem computeNumericalFluxes_sweep_calls_witness :
    (∀ p q : Nat, (xSweepPairs sampleBlock.nx sampleBlock.ny).count (p, q) =
        if p ≤ sampleBlock.nx ∧ 1 ≤ q ∧ q ≤ sampleBlock.ny then 1 else 0) ∧
      (computeNumericalFluxes sampleSolver sampleBlock).hNetUpdatesLeft 0 1 =
        (xSweepCall sampleSolver sampleBlock 0 1).netUpdateLeftH ∧
      (computeNumericalFluxes sampleSolver sampleBlock).huNetUpdatesLeft 0 1 =
        (xSweepCall sampleSolver sampleBlock 0 1).netUpdateLeftHu ∧
      (computeNumericalFluxes sampleSolver sampleBlock).hNetUpdatesRight (0 + 1) 1 =
        (xSweepCall sampleSolver sampleBlock 0 1).netUpdateRightH ∧
      (computeNumericalFluxes sampleSolver sampleBlock).huNetUpdatesRight (0 + 1) 1 =
        (xSweepCall sampleSolver sampleBlock 0 1).netUpdateRightHu ∧
      (xSweepCall sampleSolver sampleBlock 0 1).waveSpeed ≤
        maxHorizontalWaveSpeed sampleSolver sampleBlock ∧
      (∀ p q : Nat, (ySweepPairs sampleBlock.nx sampleBlock.ny).count (p, q) =
        if 1 ≤ p ∧ p ≤ sampleBlock.nx ∧ q ≤ sampleBlock.ny then 1 else 0) ∧
      (computeNumericalFluxes sampleSolver sampleBlock).hNetUpdatesBelow 1 0 =
        (ySweepCall sampleSolver sampleBlock 1 0).netUpdateLeftH ∧
      (computeNumericalFluxes sampleSolver sampleBlock).hvNetUpdatesBelow 1 0 =
        (ySweepCall sampleSolver sampleBlock 1 0).netUpdateLeftHu ∧
      (computeNumericalFluxes sampleSolver sampleBlock).hNetUpdatesAbove 1 (0 + 1) =
        (ySweepCall sampleSolver sampleBlock 1 0).netUpdateRightH ∧
      (computeNumericalFluxes sampleSolver sampleBlock).hvNetUpdatesAbove 1 (0 + 1) =
        (ySweepCall sampleSolver sampleBlock 1 0).netUpdateRightHu ∧
      (ySweepCall sampleSolver sampleBlock 1 0).waveSpeed ≤
        maxVerticalWaveSpeed sampleSolver sampleBlock :=
  computeNumericalFluxes_sweep_calls sampleSolver sampleBlock 0 1 1 0
    (by decide) (by decide) (by decide) (by decide) (by decide) (by decide)

end SWE
